import Mathlib

/-!
Shallow embedding of the libiio example programs
(`examples/ad4630-iiostream.c`, `examples/ad4696-iiostream.c`,
`examples/ad7768-iiostream.c`, `examples/adrv9002-iiostream.c`,
`examples/adrv9002-iiostream-dds.c`) together with proofs about the
properties stated in the repository's specification.

The examples are thin clients of the external libiio library.  We model the
library through a `World` of oracles (which lookups succeed, which return
codes each call produces, when the SIGINT flag becomes visible), translate
each program's control flow into a Lean function from the world to the trace
of library calls it performs plus its termination outcome, and translate the
pure sample-formatting expressions into functions on machine-integer values
(`Nat` bit patterns, `Int` signed values, with explicit reductions mod 2^32
or 2^64 where the C code truncates).
-/

namespace Iio

/-! ## Machine-integer helpers (two's complement on `Nat` bit patterns) -/

/-- Encode an integer as a 32-bit two's complement bit pattern. -/
def toNat32 (i : Int) : Nat := (i % 4294967296).toNat

/-- Decode a 32-bit bit pattern as a signed (two's complement) value,
mirroring a C cast to `int32_t`. -/
def toSInt32 (n : Nat) : Int :=
  if n % 4294967296 < 2147483648 then (n % 4294967296 : Int)
  else (n % 4294967296 : Int) - 4294967296

/-- Decode a 64-bit bit pattern as a signed (two's complement) value,
mirroring a C cast to `int64_t`. -/
def toSInt64 (n : Nat) : Int :=
  if n % 18446744073709551616 < 9223372036854775808 then (n % 18446744073709551616 : Int)
  else (n % 18446744073709551616 : Int) - 18446744073709551616

/-- C conversion of a wider signed integer to `int32_t` (wraps mod 2^32). -/
def castI32 (i : Int) : Int := toSInt32 (toNat32 i)

/-- Arithmetic shift right by `k` bits on a signed value: floor division by
2^k, which is what `>>` on a negative signed operand does under gcc/clang
(the compilers these examples target). -/
def asr (i : Int) (k : Nat) : Int := Int.fdiv i (2 ^ k)

/-! ## ad4630-iiostream.c: compile-time constants and sample formatting

Constants from `examples/ad4630-iiostream.c` lines 30-57. -/

def BUFFER_LENGTH : Nat := 400
def CHANNEL_NUMBER : Nat := 0
def MODES_REG : Nat := 0x20
def OUT_DATA_MD : Nat := 1
def DDR_MD : Nat := 0
def CLK_MD : Nat := 0
def LANE_MD : Nat := 2

/-- The value written to the modes register in `main`
(`ad4630-iiostream.c:231`): `(LANE_MD << 6) | (CLK_MD << 4) | (DDR_MD << 3) | OUT_DATA_MD`. -/
def modesRegVal : Nat := (LANE_MD <<< 6) ||| (CLK_MD <<< 4) ||| (DDR_MD <<< 3) ||| OUT_DATA_MD

/-- Per-sample formatting in the ad4630 streaming loop
(`ad4630-iiostream.c:284-333`), as a function of the compile-time constants
`OUT_DATA_MD` (`md`) and `CHANNEL_NUMBER` (`ch`) and the raw 64-bit sample
word `w`.  Returns the 32-bit bit pattern stored back into the buffer and
printed with `%x`.

* For `ch = 0` the code starts from `(int32_t)((int64_t *)buf)[sample]`,
  i.e. the low 32-bit word of the raw sample reinterpreted as signed.
* For `ch ≠ 0` it starts from `(int32_t)(((int64_t *)buf)[sample] >> 32)`,
  i.e. the high word.
* The mode then selects the arithmetic shift applied (`>> 8`, `>> 16`,
  `>> 8`, `>> 2`, none, for modes 0-4; other mode values are not compiled
  by the `#if` chain and leave the word unchanged). -/
def ad4630_format (md : Nat) (ch : Nat) (w : Nat) : Nat :=
  let word : Int :=
    if ch = 0 then toSInt32 (w % 4294967296)
    else castI32 (asr (toSInt64 w) 32)
  let res : Int :=
    if md = 0 then asr word 8
    else if md = 1 then asr word 16
    else if md = 2 then asr word 8
    else if md = 3 then asr word 2
    else word
  toNat32 res

/-- The printed CH0 column of the ad4630 loop body applied to a list of raw
sample words (`ad4630-iiostream.c:284-308`). -/
def ad4630_printed (samples : List Nat) : List Nat :=
  samples.map (fun w => ad4630_format OUT_DATA_MD CHANNEL_NUMBER w)

/-- Statement of the C3 spec sentence, written independently from the spec's
words: the low 32-bit word of the raw 64-bit sample, reinterpreted as a
signed 32-bit integer and arithmetically shifted right by 16 bits. -/
def c3_spec_value (w : Nat) : Nat := toNat32 (asr (toSInt32 (w % 4294967296)) 16)

/-! ## ad7768-iiostream.c: sample formatting -/

/-- The per-sample print expression of the ad7768 streaming loop
(`ad7768-iiostream.c:243`): `((int32_t *)buf)[sample] << 8`, printed with
`PRId32`.  `r` is the raw 32-bit bit pattern of the sample; the left shift
of the 32-bit value keeps the low 32 bits of the shifted pattern, and the
result is printed as a signed 32-bit value. -/
def ad7768_format (r : Nat) : Int := toSInt32 ((r <<< 8) % 4294967296)

/-- The list of printed values for a buffer of raw ad7768 samples
(`ad7768-iiostream.c:242-243`). -/
def ad7768_printed (samples : List Nat) : List Int := samples.map ad7768_format

/-! ## get_ch_name (ad4630-iiostream.c:142-146, identical in ad4696/ad7768)

`snprintf(tmpstr, sizeof(tmpstr), "%s%d", type, id)` with
`static char tmpstr[64]`: at most 63 characters are stored, followed by a
terminating NUL; the full formatted string is the type string followed by
the decimal representation of `id`. -/

/-- Decimal representation of a C `int`, as produced by `%d`. -/
def int_decimal (i : Int) : List Char :=
  if i < 0 then '-' :: Nat.toDigits 10 i.natAbs else Nat.toDigits 10 i.toNat

/-- The characters stored in `tmpstr` by `get_ch_name` (excluding the
terminating NUL): the formatted string truncated to the 63 characters that
fit in the 64-byte buffer. -/
def get_ch_name (ty : List Char) (id : Int) : List Char :=
  (ty ++ int_decimal id).take 63

/-- Number of bytes `snprintf` writes into `tmpstr` for `get_ch_name`:
the stored characters plus the terminating NUL. -/
def get_ch_name_bytes_written (ty : List Char) (id : Int) : Nat :=
  min (ty ++ int_decimal id).length 63 + 1

/-- Channel name string handed to `iio_device_find_channel` by the ad4630
helpers: `get_ch_name("voltage", chid)`. -/
def chName (chid : Nat) : String := String.mk (get_ch_name "voltage".data (Int.ofNat chid))

/-! ## Library-call events and termination outcomes

Each program is modelled as a function from a world of library oracles to
the sequence of libiio calls it performs (the trace) and the way the finite
prefix of execution we look at ends. -/

/-- One call into the external libiio library, with the payload and return
value relevant to the program's control flow. -/
inductive Ev where
  | createDefaultCtx
  | createUriCtx
  | getDevicesCount
  | findDevice (name : String)
  | findChannel (name : String) (output : Bool)
  | chanEnable (name : String)
  | chanDisable (name : String)
  | attrReadLL (chan attr : String) (ret : Int)
  | attrWriteLL (chan attr : String) (v : Int) (ret : Int)
  | attrReadD (chan attr : String) (ret : Int)
  | attrWriteD (chan attr : String) (ret : Int)
  | regWrite (addr v : Nat) (ret : Int)
  | regRead (addr : Nat) (ret : Int)
  | debugAttrWrite (attr v : String) (ret : Int)
  | createBuffer
  | bufDestroyRx
  | bufDestroyTx
  | ctxDestroy
  | getDataFormat
  | readRaw (ret : Int)
  | bufStep
  | bufEnd
  | bufFirst
  | checkStop (n : Nat) (v : Bool)
  | refill (ret : Int)
  deriving DecidableEq

/-- How the examined execution prefix ends: a `return`/`exit` with a status,
an `abort()` raised by the `IIO_ENSURE` macro, exhaustion of the examined
fuel (the program is still looping), or undefined behavior (a null context
handed to the library, or use of the missing return value of
`configure_trx_lo`). -/
inductive Outcome where
  | exited (code : Int)
  | aborted
  | outOfFuel
  | ub
  deriving DecidableEq

/-- Prefix the trace of a program fragment with the events `evts` that were
emitted before it ran (sequential composition of straight-line code). -/
def pre {α : Type} (evts : List Ev) (k : List Ev × α) : List Ev × α :=
  (evts ++ k.1, k.2)

/-- Teardown ordering rank: buffers are destroyed first, channels disabled
second, the context destroyed last. -/
def rank : Ev → Nat
  | .bufDestroyRx => 0
  | .bufDestroyTx => 0
  | .chanDisable _ => 1
  | .ctxDestroy => 2
  | _ => 3

/-! ## ad4630-iiostream.c program model

World of library oracles for `ad4630-iiostream.c`.  The `ad4696` and
`ad7768` examples are line-for-line identical apart from device/channel
names, the modes-register block and the per-sample formatting, so this
model is their shared shape. -/

structure W4630 where
  /-- argument count as passed to `main` (the program name counts). -/
  argc : Nat
  /-- `iio_create_default_context()` returns non-NULL. -/
  defaultCtxOk : Bool
  /-- `iio_create_context_from_uri(argv[1])` returns non-NULL. -/
  uriCtxOk : Bool
  /-- `iio_context_get_devices_count(ctx)`. -/
  devicesCount : Nat
  /-- `iio_context_find_device(ctx, "ad4630")` returns non-NULL. -/
  devFound : Bool
  /-- `iio_device_find_channel(dev, "voltage0", false)` returns non-NULL. -/
  chanFound : Bool
  /-- `iio_device_create_buffer(rx, 400, false)` returns non-NULL. -/
  bufOk : Bool
  /-- return codes of the two `iio_device_reg_write` calls (main:231, main:341). -/
  regWriteRet : Int
  regWriteRet2 : Int
  /-- return codes of the two `iio_device_reg_read` calls (main:233, main:342). -/
  regReadRet : Int
  regReadRet2 : Int
  /-- value of the `stop` flag when the `while (!stop)` condition is
  evaluated for iteration `n` (set asynchronously by `handle_sig`). -/
  stopAt : Nat → Bool
  /-- result of `iio_buffer_refill(rxbuf)` at iteration `n`. -/
  refillRet : Nat → Int
  /-- result of `iio_channel_attr_read_longlong(rxchan, "common_mode_voltage", &val)`
  at iteration `n` (the `rd_ch_lli` call compiled in because `OUT_DATA_MD == 1`). -/
  vcomRet : Nat → Int
  /-- `malloc(sample_size * BUFFER_LENGTH)` succeeds at iteration `n`. -/
  mallocOk : Nat → Bool
  /-- result of `iio_channel_read_raw` at iteration `n`. -/
  readRawRet : Nat → Int

namespace W4630

/-- Trace of the `shutdown` routine (`ad4630-iiostream.c:91-102`): destroy
the buffer if acquired, disable the channel if acquired, destroy the
context if acquired, then `exit(0)`. -/
def shutdownTrace (hasBuf hasChan hasCtx : Bool) : List Ev :=
  (if hasBuf then [Ev.bufDestroyRx] else [])
    ++ (if hasChan then [Ev.chanDisable (chName CHANNEL_NUMBER)] else [])
    ++ (if hasCtx then [Ev.ctxDestroy] else [])

/-- One iteration of the ad4630 streaming loop body
(`ad4630-iiostream.c:253-337`), after the `!stop` test has passed: refill
(on negative result `shutdown`), read the common-mode voltage through
`errchk` (on negative result `shutdown`), fetch the data format, `malloc`
(on failure `shutdown`), `iio_channel_read_raw`, format and print each
sample, `free`.  Returns the events of the iteration and whether the loop
continues; when it does not, the events end with the full `shutdown` trace
and the process exits with status 0. -/
def body (w : W4630) (n : Nat) : List Ev × Bool :=
  let r := w.refillRet n
  if r < 0 then ([Ev.refill r] ++ shutdownTrace true true true, false)
  else
    let v := w.vcomRet n
    if v < 0 then
      ([Ev.refill r, Ev.attrReadLL (chName CHANNEL_NUMBER) "common_mode_voltage" v]
        ++ shutdownTrace true true true, false)
    else if ¬ w.mallocOk n then
      ([Ev.refill r, Ev.attrReadLL (chName CHANNEL_NUMBER) "common_mode_voltage" v,
        Ev.getDataFormat] ++ shutdownTrace true true true, false)
    else
      ([Ev.refill r, Ev.attrReadLL (chName CHANNEL_NUMBER) "common_mode_voltage" v,
        Ev.getDataFormat, Ev.readRaw (w.readRawRet n)], true)

/-- Code that runs after the streaming loop exits through the `stop` flag
(`ad4630-iiostream.c:339-345`): restore the modes register to 0x82, read it
back, then `shutdown` (exit 0). -/
def postLoop (w : W4630) : List Ev :=
  [Ev.regWrite MODES_REG 0x82 w.regWriteRet2, Ev.regRead MODES_REG w.regReadRet2]
    ++ shutdownTrace true true true

/-- The `while (!stop)` streaming loop starting at iteration `n`, examined
for `fuel` iterations. -/
def loop (w : W4630) : Nat → Nat → List Ev × Outcome
  | 0, _ => ([], Outcome.outOfFuel)
  | f + 1, n =>
    if w.stopAt n then (Ev.checkStop n true :: postLoop w, Outcome.exited 0)
    else
      let b := body w n
      if b.2 then
        let rest := loop w f (n + 1)
        (Ev.checkStop n false :: b.1 ++ rest.1, rest.2)
      else (Ev.checkStop n false :: b.1, Outcome.exited 0)

/-- `main` after the context has been acquired (`ad4630-iiostream.c:225-347`).
In order: the device-count assertion, the stream-device lookup (assertion on
failure), the ignored modes-register write/read pair,
`cfg_ad4630_streaming_ch` (which re-runs the device lookup inside
`get_ad4630`, asserting, then looks the channel up), `get_ad4630_stream_ch`
(second channel lookup), channel enable, buffer creation (`shutdown` on
failure), then the streaming loop. -/
def afterCtx (w : W4630) (fuel : Nat) : List Ev × Outcome :=
  if ¬ 0 < w.devicesCount then ([Ev.getDevicesCount], Outcome.aborted)
  else pre [Ev.getDevicesCount] (
    if ¬ w.devFound then ([Ev.findDevice "ad4630"], Outcome.aborted)
    else pre [Ev.findDevice "ad4630",
        Ev.regWrite MODES_REG modesRegVal w.regWriteRet, Ev.regRead MODES_REG w.regReadRet,
        Ev.findDevice "ad4630", Ev.findChannel (chName CHANNEL_NUMBER) false] (
      if ¬ w.chanFound then ([], Outcome.aborted)
      else pre [Ev.findChannel (chName CHANNEL_NUMBER) false] (
        if ¬ w.chanFound then ([], Outcome.aborted)
        else pre [Ev.chanEnable (chName CHANNEL_NUMBER), Ev.createBuffer] (
          if ¬ w.bufOk then (shutdownTrace false true true, Outcome.exited 0)
          else loop w fuel 0))))

/-- `main` of `ad4630-iiostream.c` (lines 200-348).  With no URI argument the
context comes from `iio_create_default_context`, with one from
`iio_create_context_from_uri(argv[1])` (either wrapped in `IIO_ENSURE`,
which aborts when the call returns NULL); with more arguments neither branch
runs and the NULL context is passed to `iio_context_get_devices_count`,
which is undefined behavior. -/
def main (w : W4630) (fuel : Nat) : List Ev × Outcome :=
  if w.argc = 1 then
    if w.defaultCtxOk then pre [Ev.createDefaultCtx] (afterCtx w fuel)
    else ([Ev.createDefaultCtx], Outcome.aborted)
  else if w.argc = 2 then
    if w.uriCtxOk then pre [Ev.createUriCtx] (afterCtx w fuel)
    else ([Ev.createUriCtx], Outcome.aborted)
  else ([], Outcome.ub)

end W4630

/-! ## adrv9002-iiostream.c and adrv9002-iiostream-dds.c program models

Both programs share the signal handling, context acquisition, channel
enabling and cleanup code, so they share one world of oracles.  The
iiostream variant is modelled with its compile-time default
`TX_DAC_MODE == 0`: the `#if (TX_DAC_MODE == 2)` blocks (TX streaming
channels, TX buffer, buffer push) are not compiled. -/

/-- `ENODEV`, the errno the examples negate on lookup failure. -/
def ENODEV : Int := 19

/-- `EXIT_FAILURE`. -/
def EXIT_FAILURE : Int := 1

/-- `DAC_MODE_REGISTER` (adrv9002-iiostream.c:29). -/
def DAC_MODE_REGISTER : Nat := 0x0418

/-- `TX_DAC_MODE` (adrv9002-iiostream.c:42). -/
def TX_DAC_MODE : Nat := 0

structure WA where
  /-- argument count as passed to `main`. -/
  argc : Nat
  /-- `register_signals()` returns 0. -/
  regSigOk : Bool
  defaultCtxOk : Bool
  uriCtxOk : Bool
  /-- `iio_context_find_device(ctx, name)` returns non-NULL. -/
  findDev : String → Bool
  /-- `iio_device_find_channel(dev, name, output)` returns non-NULL. -/
  findChan : String → Bool → Bool
  /-- return code of `iio_channel_attr_read_longlong(chan, attr, &val)`. -/
  readRet : String → String → Int
  /-- the `long long` value such a read delivers. -/
  readVal : String → String → Int
  /-- return code of `iio_channel_attr_write_longlong(chan, attr, v)`. -/
  writeRet : String → String → Int → Int
  /-- return code of `iio_channel_attr_write_double(chan, "scale", ...)`. -/
  writeDRet : String → String → Int
  /-- return code of `iio_channel_attr_read_double(chan, "scale", ...)`. -/
  readDRet : String → String → Int
  regWriteRet : Int
  regReadRet : Int
  debugWriteRet : Int
  /-- `iio_device_create_buffer(rx, 1024*1024, false)` returns non-NULL. -/
  rxBufOk : Bool
  stopAt : Nat → Bool
  refillRet : Nat → Int

namespace WA

/-- `configure_trx_lo` of `adrv9002-iiostream.c` (lines 334-387).  Returns
the trace of library calls and the function result: `some r` for each
explicit `return r`, and `none` when control falls off the closing brace of
the non-void function, which the source does after the final successful
`RX1_LO_frequency` write (there is no `return` statement on that path).
`GHZ(2.5)` evaluates to the `long long` 2500000000. -/
def configureTrxLo (w : WA) : List Ev × Option Int :=
  if ¬ w.findDev "adrv9002-phy" then ([Ev.findDevice "adrv9002-phy"], some (-ENODEV))
  else pre [Ev.findDevice "adrv9002-phy"] (
    if ¬ w.findChan "voltage0" true then ([Ev.findChannel "voltage0" true], some (-ENODEV))
    else pre [Ev.findChannel "voltage0" true] (
      if w.readRet "voltage0" "rf_bandwidth" ≠ 0 then
        ([Ev.attrReadLL "voltage0" "rf_bandwidth" (w.readRet "voltage0" "rf_bandwidth")],
          some (w.readRet "voltage0" "rf_bandwidth"))
      else pre [Ev.attrReadLL "voltage0" "rf_bandwidth" (w.readRet "voltage0" "rf_bandwidth")] (
        if w.readRet "voltage0" "sampling_frequency" ≠ 0 then
          ([Ev.attrReadLL "voltage0" "sampling_frequency"
              (w.readRet "voltage0" "sampling_frequency")],
            some (w.readRet "voltage0" "sampling_frequency"))
        else pre [Ev.attrReadLL "voltage0" "sampling_frequency"
            (w.readRet "voltage0" "sampling_frequency")] (
          if ¬ w.findChan "altvoltage2" true then
            ([Ev.findChannel "altvoltage2" true], some (-ENODEV))
          else pre [Ev.findChannel "altvoltage2" true] (
            if w.writeRet "altvoltage2" "TX1_LO_frequency" 2500000000 ≠ 0 then
              ([Ev.attrWriteLL "altvoltage2" "TX1_LO_frequency" 2500000000
                  (w.writeRet "altvoltage2" "TX1_LO_frequency" 2500000000)],
                some (w.writeRet "altvoltage2" "TX1_LO_frequency" 2500000000))
            else pre [Ev.attrWriteLL "altvoltage2" "TX1_LO_frequency" 2500000000
                (w.writeRet "altvoltage2" "TX1_LO_frequency" 2500000000)] (
              if ¬ w.findChan "altvoltage0" true then
                ([Ev.findChannel "altvoltage0" true], some (-ENODEV))
              else pre [Ev.findChannel "altvoltage0" true] (
                if w.writeRet "altvoltage0" "RX1_LO_frequency" 2500000000 ≠ 0 then
                  ([Ev.attrWriteLL "altvoltage0" "RX1_LO_frequency" 2500000000
                      (w.writeRet "altvoltage0" "RX1_LO_frequency" 2500000000)],
                    some (w.writeRet "altvoltage0" "RX1_LO_frequency" 2500000000))
                else
                  ([Ev.attrWriteLL "altvoltage0" "RX1_LO_frequency" 2500000000
                      (w.writeRet "altvoltage0" "RX1_LO_frequency" 2500000000)],
                    none))))))))

/-- `configure_trx_lo` of `adrv9002-iiostream-dds.c` (lines 107-167).  Same
shape with an extra `voltage1` lookup (whose result the attribute reads then
use) and `GHZ(2.4)` = 2400000000; it too falls off the end of the function
after the final successful write. -/
def configureTrxLoDds (w : WA) : List Ev × Option Int :=
  if ¬ w.findDev "adrv9002-phy" then ([Ev.findDevice "adrv9002-phy"], some (-ENODEV))
  else pre [Ev.findDevice "adrv9002-phy"] (
    if ¬ w.findChan "voltage0" true then ([Ev.findChannel "voltage0" true], some (-ENODEV))
    else pre [Ev.findChannel "voltage0" true] (
      if ¬ w.findChan "voltage1" true then ([Ev.findChannel "voltage1" true], some (-ENODEV))
      else pre [Ev.findChannel "voltage1" true] (
        if w.readRet "voltage1" "rf_bandwidth" ≠ 0 then
          ([Ev.attrReadLL "voltage1" "rf_bandwidth" (w.readRet "voltage1" "rf_bandwidth")],
            some (w.readRet "voltage1" "rf_bandwidth"))
        else pre [Ev.attrReadLL "voltage1" "rf_bandwidth"
            (w.readRet "voltage1" "rf_bandwidth")] (
          if w.readRet "voltage1" "sampling_frequency" ≠ 0 then
            ([Ev.attrReadLL "voltage1" "sampling_frequency"
                (w.readRet "voltage1" "sampling_frequency")],
              some (w.readRet "voltage1" "sampling_frequency"))
          else pre [Ev.attrReadLL "voltage1" "sampling_frequency"
              (w.readRet "voltage1" "sampling_frequency")] (
            if ¬ w.findChan "altvoltage2" true then
              ([Ev.findChannel "altvoltage2" true], some (-ENODEV))
            else pre [Ev.findChannel "altvoltage2" true] (
              if w.writeRet "altvoltage2" "TX1_LO_frequency" 2400000000 ≠ 0 then
                ([Ev.attrWriteLL "altvoltage2" "TX1_LO_frequency" 2400000000
                    (w.writeRet "altvoltage2" "TX1_LO_frequency" 2400000000)],
                  some (w.writeRet "altvoltage2" "TX1_LO_frequency" 2400000000))
              else pre [Ev.attrWriteLL "altvoltage2" "TX1_LO_frequency" 2400000000
                  (w.writeRet "altvoltage2" "TX1_LO_frequency" 2400000000)] (
                if ¬ w.findChan "altvoltage0" true then
                  ([Ev.findChannel "altvoltage0" true], some (-ENODEV))
                else pre [Ev.findChannel "altvoltage0" true] (
                  if w.writeRet "altvoltage0" "RX1_LO_frequency" 2400000000 ≠ 0 then
                    ([Ev.attrWriteLL "altvoltage0" "RX1_LO_frequency" 2400000000
                        (w.writeRet "altvoltage0" "RX1_LO_frequency" 2400000000)],
                      some (w.writeRet "altvoltage0" "RX1_LO_frequency" 2400000000))
                  else
                    ([Ev.attrWriteLL "altvoltage0" "RX1_LO_frequency" 2400000000
                        (w.writeRet "altvoltage0" "RX1_LO_frequency" 2400000000)],
                      none)))))))))

/-- Frequency/scale writes to one DDS tone pair: the body shared by both
branches of `dds_single_tone` (adrv9002-iiostream.c:418-481), parameterised
by the I and Q channel names (`altvoltage0`/`altvoltage2` for channel 0,
`altvoltage4`/`altvoltage6` otherwise). -/
def ddsTonePair (w : WA) (nameI nameQ : String) (freq : Int) : List Ev × Option Int :=
  if ¬ w.findChan nameI true then ([Ev.findChannel nameI true], some (-ENODEV))
  else pre [Ev.findChannel nameI true] (
    if w.writeRet nameI "frequency" freq ≠ 0 then
      ([Ev.attrWriteLL nameI "frequency" freq (w.writeRet nameI "frequency" freq)],
        some (w.writeRet nameI "frequency" freq))
    else pre [Ev.attrWriteLL nameI "frequency" freq (w.writeRet nameI "frequency" freq)] (
      if w.writeDRet nameI "scale" ≠ 0 then
        ([Ev.attrWriteD nameI "scale" (w.writeDRet nameI "scale")],
          some (w.writeDRet nameI "scale"))
      else pre [Ev.attrWriteD nameI "scale" (w.writeDRet nameI "scale")] (
        if ¬ w.findChan nameQ true then ([Ev.findChannel nameQ true], some (-ENODEV))
        else pre [Ev.findChannel nameQ true] (
          if w.writeRet nameQ "frequency" freq ≠ 0 then
            ([Ev.attrWriteLL nameQ "frequency" freq (w.writeRet nameQ "frequency" freq)],
              some (w.writeRet nameQ "frequency" freq))
          else pre [Ev.attrWriteLL nameQ "frequency" freq (w.writeRet nameQ "frequency" freq)] (
            if w.writeDRet nameQ "scale" ≠ 0 then
              ([Ev.attrWriteD nameQ "scale" (w.writeDRet nameQ "scale")],
                some (w.writeDRet nameQ "scale"))
            else ([Ev.attrWriteD nameQ "scale" (w.writeDRet nameQ "scale")], none))))))

/-- `dds_single_tone` (adrv9002-iiostream.c:405-487): find the TX device,
configure the I/Q tone pair for the selected channel, enable both channels,
return 0. -/
def ddsSingleTone (w : WA) (freq : Int) (channel : Nat) : List Ev × Int :=
  if ¬ w.findDev "axi-adrv9002-tx-lpc" then
    ([Ev.findDevice "axi-adrv9002-tx-lpc"], -ENODEV)
  else
    let nameI := if channel = 0 then "altvoltage0" else "altvoltage4"
    let nameQ := if channel = 0 then "altvoltage2" else "altvoltage6"
    let p := ddsTonePair w nameI nameQ freq
    match p.2 with
    | some r => (Ev.findDevice "axi-adrv9002-tx-lpc" :: p.1, r)
    | none =>
      (Ev.findDevice "axi-adrv9002-tx-lpc" :: p.1
        ++ [Ev.chanEnable nameI, Ev.chanEnable nameQ], 0)

/-- Frequency/scale writes with read-back for one DDS tone pair: the body
shared by both branches of `configure_tx_dds` (adrv9002-iiostream-dds.c:
226-339).  The frequency read back from the I channel is the value written
to the Q channel. -/
def txDdsTonePair (w : WA) (nameI nameQ : String) (freq : Int) : List Ev × Option Int :=
  if ¬ w.findChan nameI true then ([Ev.findChannel nameI true], some (-ENODEV))
  else pre [Ev.findChannel nameI true] (
    if w.writeRet nameI "frequency" freq ≠ 0 then
      ([Ev.attrWriteLL nameI "frequency" freq (w.writeRet nameI "frequency" freq)],
        some (w.writeRet nameI "frequency" freq))
    else pre [Ev.attrWriteLL nameI "frequency" freq (w.writeRet nameI "frequency" freq)] (
      if w.writeDRet nameI "scale" ≠ 0 then
        ([Ev.attrWriteD nameI "scale" (w.writeDRet nameI "scale")],
          some (w.writeDRet nameI "scale"))
      else pre [Ev.attrWriteD nameI "scale" (w.writeDRet nameI "scale")] (
        if w.readRet nameI "frequency" ≠ 0 then
          ([Ev.attrReadLL nameI "frequency" (w.readRet nameI "frequency")],
            some (w.readRet nameI "frequency"))
        else pre [Ev.attrReadLL nameI "frequency" (w.readRet nameI "frequency")] (
          if w.readDRet nameI "scale" ≠ 0 then
            ([Ev.attrReadD nameI "scale" (w.readDRet nameI "scale")],
              some (w.readDRet nameI "scale"))
          else pre [Ev.attrReadD nameI "scale" (w.readDRet nameI "scale")] (
            if ¬ w.findChan nameQ true then ([Ev.findChannel nameQ true], some (-ENODEV))
            else pre [Ev.findChannel nameQ true] (
              if w.writeRet nameQ "frequency" (w.readVal nameI "frequency") ≠ 0 then
                ([Ev.attrWriteLL nameQ "frequency" (w.readVal nameI "frequency")
                    (w.writeRet nameQ "frequency" (w.readVal nameI "frequency"))],
                  some (w.writeRet nameQ "frequency" (w.readVal nameI "frequency")))
              else pre [Ev.attrWriteLL nameQ "frequency" (w.readVal nameI "frequency")
                  (w.writeRet nameQ "frequency" (w.readVal nameI "frequency"))] (
                if w.writeDRet nameQ "scale" ≠ 0 then
                  ([Ev.attrWriteD nameQ "scale" (w.writeDRet nameQ "scale")],
                    some (w.writeDRet nameQ "scale"))
                else pre [Ev.attrWriteD nameQ "scale" (w.writeDRet nameQ "scale")] (
                  if w.readRet nameQ "frequency" ≠ 0 then
                    ([Ev.attrReadLL nameQ "frequency" (w.readRet nameQ "frequency")],
                      some (w.readRet nameQ "frequency"))
                  else pre [Ev.attrReadLL nameQ "frequency" (w.readRet nameQ "frequency")] (
                    if w.readDRet nameQ "scale" ≠ 0 then
                      ([Ev.attrReadD nameQ "scale" (w.readDRet nameQ "scale")],
                        some (w.readDRet nameQ "scale"))
                    else
                      ([Ev.attrReadD nameQ "scale" (w.readDRet nameQ "scale")],
                        none))))))))))

/-- `configure_tx_dds` (adrv9002-iiostream-dds.c:213-345). -/
def configureTxDds (w : WA) (freq : Int) (channel : Nat) : List Ev × Int :=
  if ¬ w.findDev "axi-adrv9002-tx-lpc" then
    ([Ev.findDevice "axi-adrv9002-tx-lpc"], -ENODEV)
  else
    let nameI := if channel = 0 then "altvoltage0" else "altvoltage4"
    let nameQ := if channel = 0 then "altvoltage2" else "altvoltage6"
    let p := txDdsTonePair w nameI nameQ freq
    match p.2 with
    | some r => (Ev.findDevice "axi-adrv9002-tx-lpc" :: p.1, r)
    | none =>
      (Ev.findDevice "axi-adrv9002-tx-lpc" :: p.1
        ++ [Ev.chanEnable nameI, Ev.chanEnable nameQ], 0)

/-- `stream_channels_get_enable` (adrv9002-iiostream.c:694-715, identical in
the dds variant): look up and enable the two streaming channels named
`voltage0_i`/`voltage0_q` (RX) or `voltage0`/`voltage1` (TX).  Returns the
trace, the result, and which of `chan[0]`, `chan[1]` hold a channel when the
function returns (a partial failure leaves `chan[0]` set). -/
def streamChannelsGetEnable (w : WA) (tx : Bool) : List Ev × Int × Bool × Bool :=
  let name0 := if tx then "voltage0" else "voltage0_i"
  let name1 := if tx then "voltage1" else "voltage0_q"
  if ¬ w.findChan name0 tx then ([Ev.findChannel name0 tx], -ENODEV, false, false)
  else
    let t1 := [Ev.findChannel name0 tx, Ev.chanEnable name0, Ev.findChannel name1 tx]
    if ¬ w.findChan name1 tx then (t1, -ENODEV, true, false)
    else (t1 ++ [Ev.chanEnable name1], 0, true, true)

/-- `cleanup` (adrv9002-iiostream.c:673-692, identical in the dds variant):
destroy the RX then TX buffer when acquired, disable whichever of the four
streaming channels are acquired (`rx_chan[c]`/`tx_chan[c]` for `c = 0, 1`),
then destroy the context unconditionally. -/
def cleanupTrace (rxb txb rx0 rx1 tx0 tx1 : Bool) : List Ev :=
  (if rxb then [Ev.bufDestroyRx] else [])
    ++ (if txb then [Ev.bufDestroyTx] else [])
    ++ (if rx0 then [Ev.chanDisable "voltage0_i"] else [])
    ++ (if tx0 then [Ev.chanDisable "voltage0"] else [])
    ++ (if rx1 then [Ev.chanDisable "voltage0_q"] else [])
    ++ (if tx1 then [Ev.chanDisable "voltage1"] else [])
    ++ [Ev.ctxDestroy]

/-- Result of the `stream` loop: exited because the `stop` flag was seen
set, returned early because a refill failed, or still running when the
examined fuel ran out. -/
inductive StreamRes where
  | flagged
  | errReturn
  | fuelOut
  deriving DecidableEq

/-- The `while (!stop)` loop of `stream` (adrv9002-iiostream.c:726-776 with
`TX_DAC_MODE == 0`, so no buffer push; the dds variant's loop at
adrv9002-iiostream-dds.c:356-387 performs the same library calls): test the
flag, refill (returning from `stream` on a negative result), then walk the
buffer via `iio_buffer_step`/`iio_buffer_end`/`iio_buffer_first`, swapping
and printing samples (no library calls per sample). -/
def streamLoop (w : WA) : Nat → Nat → List Ev × StreamRes
  | 0, _ => ([], StreamRes.fuelOut)
  | f + 1, n =>
    if w.stopAt n then ([Ev.checkStop n true], StreamRes.flagged)
    else
      let r := w.refillRet n
      if r < 0 then ([Ev.checkStop n false, Ev.refill r], StreamRes.errReturn)
      else
        let rest := streamLoop w f (n + 1)
        (Ev.checkStop n false :: Ev.refill r :: Ev.bufStep :: Ev.bufEnd :: Ev.bufFirst
          :: rest.1, rest.2)

/-- `main` of `adrv9002-iiostream.c` after the context has been acquired
(lines 809-876, with `TX_DAC_MODE == 0`): `configure_trx_lo` (whose missing
return value makes the onward behavior undefined when all its calls
succeed), the phy and tx lookups, the ignored DAC-mode register write/read
pair, `dds_single_tone`, the rx lookup, `stream_channels_get_enable`, RX
buffer creation, `stream`, the ignored debug-attribute write, and `cleanup`
with `return ret`. -/
def mainAfterCtx (w : WA) (fuel : Nat) : List Ev × Outcome :=
  match (w.configureTrxLo).2 with
  | none => ((w.configureTrxLo).1, Outcome.ub)
  | some r =>
    pre (w.configureTrxLo).1 (
      if r ≠ 0 then
        (cleanupTrace false false false false false false, Outcome.exited r)
      else
        if ¬ w.findDev "adrv9002-phy" then
          (Ev.findDevice "adrv9002-phy" :: cleanupTrace false false false false false false,
            Outcome.exited EXIT_FAILURE)
        else pre [Ev.findDevice "adrv9002-phy"] (
          if ¬ w.findDev "axi-adrv9002-tx-lpc" then
            (Ev.findDevice "axi-adrv9002-tx-lpc"
                :: cleanupTrace false false false false false false,
              Outcome.exited EXIT_FAILURE)
          else pre [Ev.findDevice "axi-adrv9002-tx-lpc",
              Ev.regWrite DAC_MODE_REGISTER TX_DAC_MODE w.regWriteRet,
              Ev.regRead DAC_MODE_REGISTER w.regReadRet] (
            if (ddsSingleTone w 5000 0).2 ≠ 0 then
              ((ddsSingleTone w 5000 0).1 ++ cleanupTrace false false false false false false,
                Outcome.exited (ddsSingleTone w 5000 0).2)
            else pre (ddsSingleTone w 5000 0).1 (
              if ¬ w.findDev "axi-adrv9002-rx-lpc" then
                (Ev.findDevice "axi-adrv9002-rx-lpc"
                    :: cleanupTrace false false false false false false,
                  Outcome.exited EXIT_FAILURE)
              else pre [Ev.findDevice "axi-adrv9002-rx-lpc"] (
                if (streamChannelsGetEnable w false).2.1 ≠ 0 then
                  ((streamChannelsGetEnable w false).1
                      ++ cleanupTrace false false (streamChannelsGetEnable w false).2.2.1
                          (streamChannelsGetEnable w false).2.2.2 false false,
                    Outcome.exited (streamChannelsGetEnable w false).2.1)
                else pre (streamChannelsGetEnable w false).1 (
                  if ¬ w.rxBufOk then
                    (Ev.createBuffer :: cleanupTrace false false true true false false,
                      Outcome.exited EXIT_FAILURE)
                  else pre [Ev.createBuffer] (
                    if (streamLoop w fuel 0).2 = StreamRes.fuelOut then
                      ((streamLoop w fuel 0).1, Outcome.outOfFuel)
                    else
                      ((streamLoop w fuel 0).1
                          ++ Ev.debugAttrWrite "tx0_ssi_test_mode_loopback_en" "0"
                              w.debugWriteRet
                            :: cleanupTrace true false true true false false,
                        Outcome.exited 0))))))))

/-- `main` of `adrv9002-iiostream.c` (lines 786-877): `register_signals`
(EXIT_FAILURE on failure), context acquisition (default call for `argc == 1`,
URI call for `argc == 2`, no creation call otherwise; EXIT_FAILURE when the
context pointer is still NULL), then the body modelled by `mainAfterCtx`. -/
def mainA (w : WA) (fuel : Nat) : List Ev × Outcome :=
  if ¬ w.regSigOk then ([], Outcome.exited EXIT_FAILURE)
  else if w.argc = 1 then
    if w.defaultCtxOk then pre [Ev.createDefaultCtx] (mainAfterCtx w fuel)
    else ([Ev.createDefaultCtx], Outcome.exited EXIT_FAILURE)
  else if w.argc = 2 then
    if w.uriCtxOk then pre [Ev.createUriCtx] (mainAfterCtx w fuel)
    else ([Ev.createUriCtx], Outcome.exited EXIT_FAILURE)
  else ([], Outcome.exited EXIT_FAILURE)

/-- `main` of `adrv9002-iiostream-dds.c` after the context has been acquired
(lines 416-455): `configure_trx_lo` (dds variant, same missing return),
`configure_tx_dds`, the rx lookup, `stream_channels_get_enable`, RX buffer
creation, `stream`, and `cleanup` with `return ret`. -/
def mainDdsAfterCtx (w : WA) (fuel : Nat) : List Ev × Outcome :=
  match (w.configureTrxLoDds).2 with
  | none => ((w.configureTrxLoDds).1, Outcome.ub)
  | some r =>
    pre (w.configureTrxLoDds).1 (
      if r ≠ 0 then
        (cleanupTrace false false false false false false, Outcome.exited r)
      else
        if (configureTxDds w 5000 0).2 ≠ 0 then
          ((configureTxDds w 5000 0).1 ++ cleanupTrace false false false false false false,
            Outcome.exited (configureTxDds w 5000 0).2)
        else pre (configureTxDds w 5000 0).1 (
          if ¬ w.findDev "axi-adrv9002-rx-lpc" then
            (Ev.findDevice "axi-adrv9002-rx-lpc"
                :: cleanupTrace false false false false false false,
              Outcome.exited EXIT_FAILURE)
          else pre [Ev.findDevice "axi-adrv9002-rx-lpc"] (
            if (streamChannelsGetEnable w false).2.1 ≠ 0 then
              ((streamChannelsGetEnable w false).1
                  ++ cleanupTrace false false (streamChannelsGetEnable w false).2.2.1
                      (streamChannelsGetEnable w false).2.2.2 false false,
                Outcome.exited (streamChannelsGetEnable w false).2.1)
            else pre (streamChannelsGetEnable w false).1 (
              if ¬ w.rxBufOk then
                (Ev.createBuffer :: cleanupTrace false false true true false false,
                  Outcome.exited EXIT_FAILURE)
              else pre [Ev.createBuffer] (
                if (streamLoop w fuel 0).2 = StreamRes.fuelOut then
                  ((streamLoop w fuel 0).1, Outcome.outOfFuel)
                else
                  ((streamLoop w fuel 0).1 ++ cleanupTrace true false true true false false,
                    Outcome.exited 0))))))

/-- `main` of `adrv9002-iiostream-dds.c` (lines 396-456). -/
def mainDds (w : WA) (fuel : Nat) : List Ev × Outcome :=
  if ¬ w.regSigOk then ([], Outcome.exited EXIT_FAILURE)
  else if w.argc = 1 then
    if w.defaultCtxOk then pre [Ev.createDefaultCtx] (mainDdsAfterCtx w fuel)
    else ([Ev.createDefaultCtx], Outcome.exited EXIT_FAILURE)
  else if w.argc = 2 then
    if w.uriCtxOk then pre [Ev.createUriCtx] (mainDdsAfterCtx w fuel)
    else ([Ev.createUriCtx], Outcome.exited EXIT_FAILURE)
  else ([], Outcome.exited EXIT_FAILURE)

end WA

/-! ## Arithmetic helper lemmas -/

/-- Closed form of the C3 formatting value: unsigned quotient by 2^16 plus
sign extension of the high bit into the top 16 bits. -/
theorem c3_spec_value_closed (w : Nat) :
    c3_spec_value w
      = w % 4294967296 / 65536
        + (if 2147483648 ≤ w % 4294967296 then 4294901760 else 0) := by
  unfold c3_spec_value toSInt32 asr toNat32
  generalize hl : w % 4294967296 = lo
  have hlt : lo < 4294967296 := hl ▸ Nat.mod_lt _ (by norm_num)
  have hmm : lo % 4294967296 = lo := Nat.mod_eq_of_lt hlt
  rw [hmm]
  rcases lt_or_le lo 2147483648 with h | h
  · rw [if_pos h, if_neg (by omega)]
    rw [show ((2 : Int) ^ 16) = 65536 by norm_num, Int.fdiv_eq_ediv _ (by norm_num)]
    omega
  · rw [if_neg (by omega), if_pos h]
    rw [show ((2 : Int) ^ 16) = 65536 by norm_num, Int.fdiv_eq_ediv _ (by norm_num)]
    omega

/-- Pointwise description of `ad7768_format` without the shift operator. -/
theorem ad7768_format_eq (r : Nat) :
    ad7768_format r = toSInt32 ((r * 256) % 4294967296) := by
  unfold ad7768_format
  rw [Nat.shiftLeft_eq]

/-! ## Claim theorems -/

/-- C3: in the AD4630 example as configured (`OUT_DATA_MD == 1`,
`CHANNEL_NUMBER == 0`), every printed 32-bit value is the low 32-bit word of
the raw 64-bit sample reinterpreted as a signed 32-bit integer and
arithmetically shifted right by 16 bits; it is a function of the raw sample
word and the compile-time mode constant alone (the closed form in the last
conjunct makes the sign-extension explicit). -/
theorem c3_ad4630_sample_formatting :
    (∀ samples : List Nat, ad4630_printed samples = samples.map c3_spec_value) ∧
    (∀ w : Nat, ad4630_format OUT_DATA_MD CHANNEL_NUMBER w = c3_spec_value w) ∧
    (∀ w : Nat,
      ad4630_format OUT_DATA_MD CHANNEL_NUMBER w
        = w % 4294967296 / 65536
          + (if 2147483648 ≤ w % 4294967296 then 4294901760 else 0)) := by
  refine ⟨fun samples => rfl, fun w => rfl, fun w => ?_⟩
  exact c3_spec_value_closed w

/-- C7: in the AD7768 example every printed sample value is the raw 32-bit
sample word shifted left by 8 bits, i.e. the raw signed 32-bit value
multiplied by 256 and reduced modulo 2^32, reinterpreted as signed; nothing
else is applied to the samples before printing (the printed list is the
pointwise image of the raw samples under this one map). -/
theorem c7_ad7768_sample_formatting :
    (∀ samples : List Nat,
      ad7768_printed samples = samples.map (fun r => toSInt32 ((r * 256) % 4294967296))) ∧
    (∀ r : Nat, r < 4294967296 →
      ad7768_format r = toSInt32 (toNat32 (256 * toSInt32 r))) := by
  constructor
  · intro samples
    unfold ad7768_printed
    exact List.map_congr_left fun r _ => ad7768_format_eq r
  · intro r hr
    rw [ad7768_format_eq]
    have : (r * 256) % 4294967296 = toNat32 (256 * toSInt32 r) := by
      unfold toNat32 toSInt32
      rw [Nat.mod_eq_of_lt hr]
      split <;> omega
    rw [this]

/-- Witness for C7 at the concrete sample pattern 0x80000001. -/
theorem c7_witness :
    ad7768_format 2147483649 = toSInt32 (toNat32 (256 * toSInt32 2147483649)) :=
  c7_ad7768_sample_formatting.2 2147483649 (by norm_num)

/-- C10: `get_ch_name` stores at most 63 characters (plus the terminating
NUL: at most 64 bytes are written into the 64-byte `tmpstr`), and the stored
characters are the type string followed by the decimal representation of
`id`, truncated to fit; when the formatted text fits, nothing is truncated. -/
theorem c10_get_ch_name_safety :
    (∀ (ty : List Char) (id : Int), (get_ch_name ty id).length ≤ 63) ∧
    (∀ (ty : List Char) (id : Int),
      get_ch_name ty id = (ty ++ int_decimal id).take 63) ∧
    (∀ (ty : List Char) (id : Int), get_ch_name_bytes_written ty id ≤ 64) ∧
    (∀ (ty : List Char) (id : Int),
      (ty ++ int_decimal id).length ≤ 63 → get_ch_name ty id = ty ++ int_decimal id) := by
  refine ⟨fun ty id => ?_, fun ty id => rfl, fun ty id => ?_, fun ty id h => ?_⟩
  · unfold get_ch_name
    exact List.length_take_le _ _
  · unfold get_ch_name_bytes_written
    omega
  · unfold get_ch_name
    exact List.take_of_length_le h

/-- Witness for C10 at the call the examples make: `get_ch_name("voltage", 0)`. -/
theorem c10_witness :
    ("voltage".data ++ int_decimal 0).length ≤ 63 ∧
    get_ch_name "voltage".data 0 = "voltage".data ++ int_decimal 0 :=
  ⟨by decide, c10_get_ch_name_safety.2.2.2 "voltage".data 0 (by decide)⟩

/-! ## Concrete worlds used for counterexamples and witnesses -/

/-- adrv9002 world in which every library call succeeds and the stop flag is
already set when the streaming loop first tests it. -/
def wAllOk : WA where
  argc := 1
  regSigOk := true
  defaultCtxOk := true
  uriCtxOk := true
  findDev := fun _ => true
  findChan := fun _ _ => true
  readRet := fun _ _ => 0
  readVal := fun _ _ => 9000000
  writeRet := fun _ _ _ => 0
  writeDRet := fun _ _ => 0
  readDRet := fun _ _ => 0
  regWriteRet := 0
  regReadRet := 0
  debugWriteRet := 0
  rxBufOk := true
  stopAt := fun _ => true
  refillRet := fun _ => 4194304

/-- adrv9002 world in which the `adrv9002-phy` device lookup fails and
everything else succeeds. -/
def wNoPhy : WA := { wAllOk with findDev := fun n => n != "adrv9002-phy" }

/-- ad4630 world in which every checked library call succeeds, the modes
register write fails with -5, and the stop flag is set before the first loop
iteration. -/
def w4630RegFail : W4630 where
  argc := 1
  defaultCtxOk := true
  uriCtxOk := true
  devicesCount := 1
  devFound := true
  chanFound := true
  bufOk := true
  regWriteRet := -5
  regWriteRet2 := 0
  regReadRet := 0
  regReadRet2 := 0
  stopAt := fun _ => true
  refillRet := fun _ => 3200
  vcomRet := fun _ => 0
  mallocOk := fun _ => true
  readRawRet := fun _ => 3200

/-- ad4630 world in which setup succeeds and the second refill fails
with -22 (EINVAL) before the signal flag is ever set. -/
def w4630RefillFail : W4630 :=
  { w4630RegFail with
    regWriteRet := 0
    stopAt := fun _ => false
    refillRet := fun n => if n = 1 then -22 else 3200 }

/-- C8 (code bug): in both adrv9002 examples, on the execution in which
every device lookup, channel lookup and attribute read/write inside
`configure_trx_lo` succeeds, the function performs all of its library calls
(8 in `adrv9002-iiostream.c`, 9 in the dds variant) and then reaches the
closing brace of the non-void function without executing any `return`
statement (result `none`), instead of returning 0 as every caller expects:
`main` goes on to branch on the indeterminate value. -/
theorem c8_configure_trx_lo_missing_return :
    (WA.configureTrxLo wAllOk).2 = none ∧ (WA.configureTrxLo wAllOk).1.length = 8 ∧
    (WA.configureTrxLoDds wAllOk).2 = none ∧ (WA.configureTrxLoDds wAllOk).1.length = 9 :=
  ⟨rfl, rfl, rfl, rfl⟩

/-- C2 counterexample: when the `adrv9002-phy` lookup fails, both adrv9002
example programs terminate with exit status `-ENODEV = -19`, which is
neither 0 nor `EXIT_FAILURE`, and no assertion aborts. -/
theorem c2_counterexample_negative_exit :
    (WA.mainA wNoPhy 1).2 = Outcome.exited (-19) ∧
    (WA.mainDds wNoPhy 1).2 = Outcome.exited (-19) ∧
    ((-19 : Int) ≠ 0 ∧ (-19 : Int) ≠ EXIT_FAILURE) := by
  refine ⟨rfl, rfl, by decide⟩

/-- C1 counterexample: in the ad4630 example, the modes-register write
`iio_device_reg_write(rx, MODES_REG, ...)` can return the negative code -5
and execution continues regardless: the very next event is the register
read, the program performs further library calls, and it finishes with a
normal `exit(0)` rather than any error exit or abort.  The failing call's
return value is simply discarded. -/
theorem c1_counterexample_reg_write_ignored :
    (W4630.main w4630RegFail 1).1.get? 3
        = some (Ev.regWrite MODES_REG modesRegVal (-5)) ∧
    (W4630.main w4630RegFail 1).1.get? 4 = some (Ev.regRead MODES_REG 0) ∧
    ((-5 : Int) < 0) ∧
    10 ≤ (W4630.main w4630RegFail 1).1.length ∧
    (W4630.main w4630RegFail 1).2 = Outcome.exited 0 := by
  refine ⟨rfl, rfl, by decide, by decide, rfl⟩

/-- C9: in both adrv9002 examples, an invocation with more than one
command-line argument performs no library call at all (in particular no
context-creation call and no device or channel operation) and `main` returns
`EXIT_FAILURE`. -/
theorem c9_argc_gt_two_exits_failure :
    ∀ (w : WA) (fuel : Nat), 2 < w.argc →
      WA.mainA w fuel = ([], Outcome.exited EXIT_FAILURE) ∧
      WA.mainDds w fuel = ([], Outcome.exited EXIT_FAILURE) := by
  intro w fuel h
  unfold WA.mainA WA.mainDds
  have h1 : w.argc ≠ 1 := by omega
  have h2 : w.argc ≠ 2 := by omega
  rw [if_neg h1, if_neg h2, if_neg h1, if_neg h2]
  split <;> simp

/-- Witness for C9: a three-argument invocation of both programs. -/
theorem c9_witness :
    WA.mainA { wAllOk with argc := 3 } 1 = ([], Outcome.exited EXIT_FAILURE) ∧
    WA.mainDds { wAllOk with argc := 3 } 1 = ([], Outcome.exited EXIT_FAILURE) :=
  c9_argc_gt_two_exits_failure { wAllOk with argc := 3 } 1 (by decide)

/-- C4: teardown releases the handles in the LIFO order buffers → channels →
context.  For ad4630's `shutdown`, the trace is sorted by `rank` (buffer
destruction before channel disabling before context destruction) and a
handle's event appears exactly when the handle was acquired.  For the
adrv9002 `cleanup` the same holds for the buffers and the four streaming
channels, the context destruction always comes last — and the final three
conjuncts show the context-destroy call is only ever reached in executions
where the context was in fact acquired. -/
theorem c4_teardown_lifo_order :
    (∀ b c x : Bool,
      List.Pairwise (fun e e2 => rank e ≤ rank e2) (W4630.shutdownTrace b c x) ∧
      (Ev.bufDestroyRx ∈ W4630.shutdownTrace b c x ↔ b = true) ∧
      (Ev.chanDisable (chName CHANNEL_NUMBER) ∈ W4630.shutdownTrace b c x ↔ c = true) ∧
      (Ev.ctxDestroy ∈ W4630.shutdownTrace b c x ↔ x = true)) ∧
    (∀ rxb txb rx0 rx1 tx0 tx1 : Bool,
      List.Pairwise (fun e e2 => rank e ≤ rank e2)
        (WA.cleanupTrace rxb txb rx0 rx1 tx0 tx1) ∧
      (Ev.bufDestroyRx ∈ WA.cleanupTrace rxb txb rx0 rx1 tx0 tx1 ↔ rxb = true) ∧
      (Ev.bufDestroyTx ∈ WA.cleanupTrace rxb txb rx0 rx1 tx0 tx1 ↔ txb = true) ∧
      (Ev.chanDisable "voltage0_i" ∈ WA.cleanupTrace rxb txb rx0 rx1 tx0 tx1 ↔ rx0 = true) ∧
      (Ev.chanDisable "voltage0_q" ∈ WA.cleanupTrace rxb txb rx0 rx1 tx0 tx1 ↔ rx1 = true) ∧
      (Ev.chanDisable "voltage0" ∈ WA.cleanupTrace rxb txb rx0 rx1 tx0 tx1 ↔ tx0 = true) ∧
      (Ev.chanDisable "voltage1" ∈ WA.cleanupTrace rxb txb rx0 rx1 tx0 tx1 ↔ tx1 = true) ∧
      (WA.cleanupTrace rxb txb rx0 rx1 tx0 tx1).getLast? = some Ev.ctxDestroy) ∧
    (∀ (w : WA) (fuel : Nat), Ev.ctxDestroy ∈ (WA.mainA w fuel).1 →
      (w.argc = 1 ∧ w.defaultCtxOk = true) ∨ (w.argc = 2 ∧ w.uriCtxOk = true)) ∧
    (∀ (w : WA) (fuel : Nat), Ev.ctxDestroy ∈ (WA.mainDds w fuel).1 →
      (w.argc = 1 ∧ w.defaultCtxOk = true) ∨ (w.argc = 2 ∧ w.uriCtxOk = true)) ∧
    (∀ (w : W4630) (fuel : Nat), Ev.ctxDestroy ∈ (W4630.main w fuel).1 →
      (w.argc = 1 ∧ w.defaultCtxOk = true) ∨ (w.argc = 2 ∧ w.uriCtxOk = true)) := by
  refine ⟨?_, ?_, ?_, ?_, ?_⟩
  · intro b c x
    cases b <;> cases c <;> cases x <;> decide
  · intro rxb txb rx0 rx1 tx0 tx1
    cases rxb <;> cases txb <;> cases rx0 <;> cases rx1 <;> cases tx0 <;> cases tx1 <;> decide
  · intro w fuel h
    unfold WA.mainA at h
    split_ifs at h <;> simp_all
  · intro w fuel h
    unfold WA.mainDds at h
    split_ifs at h <;> simp_all
  · intro w fuel h
    unfold W4630.main at h
    split_ifs at h <;> simp_all

/-! ## No-creation lemmas: the only context-creation calls the programs make
are the ones in `main`, determined by `argc` -/

/-- No context-creation event occurs in a trace. -/
def NoCreate (l : List Ev) : Prop :=
  Ev.createDefaultCtx ∉ l ∧ Ev.createUriCtx ∉ l

theorem NoCreate.append {l1 l2 : List Ev} (h1 : NoCreate l1) (h2 : NoCreate l2) :
    NoCreate (l1 ++ l2) := by
  unfold NoCreate at *
  simp [List.mem_append]
  tauto

theorem noCreate_shutdownTrace (b c x : Bool) : NoCreate (W4630.shutdownTrace b c x) := by
  constructor <;>
    (intro h; unfold W4630.shutdownTrace at h; split_ifs at h <;> simp_all)

theorem noCreate_body (w : W4630) (n : Nat) : NoCreate (W4630.body w n).1 := by
  constructor <;>
    (intro h
     unfold W4630.body at h
     split_ifs at h <;>
       simp only [Prod.fst, List.mem_append, List.mem_cons, List.not_mem_nil,
         W4630.shutdownTrace] at h <;>
       split_ifs at h <;> simp_all)

theorem noCreate_postLoop (w : W4630) : NoCreate (W4630.postLoop w) := by
  constructor <;>
    (intro h
     unfold W4630.postLoop W4630.shutdownTrace at h
     simp_all)

/-! Step equations for the ad4630 streaming loop. -/

theorem loop_stop (w : W4630) (f n : Nat) (hs : w.stopAt n = true) :
    W4630.loop w (f + 1) n = (Ev.checkStop n true :: W4630.postLoop w, Outcome.exited 0) := by
  simp [W4630.loop, hs]

theorem loop_cont (w : W4630) (f n : Nat) (hs : w.stopAt n = false)
    (hb : (W4630.body w n).2 = true) :
    W4630.loop w (f + 1) n
      = (Ev.checkStop n false :: (W4630.body w n).1 ++ (W4630.loop w f (n + 1)).1,
          (W4630.loop w f (n + 1)).2) := by
  simp [W4630.loop, hs, hb]

theorem loop_halt (w : W4630) (f n : Nat) (hs : w.stopAt n = false)
    (hb : (W4630.body w n).2 = false) :
    W4630.loop w (f + 1) n
      = (Ev.checkStop n false :: (W4630.body w n).1, Outcome.exited 0) := by
  simp [W4630.loop, hs, hb]

theorem noCreate_loop (w : W4630) (fuel n : Nat) : NoCreate (W4630.loop w fuel n).1 := by
  induction fuel generalizing n with
  | zero => exact ⟨by simp [W4630.loop], by simp [W4630.loop]⟩
  | succ f ih =>
    have hb := noCreate_body w n
    have hp := noCreate_postLoop w
    have hr := ih (n + 1)
    rcases hs : w.stopAt n with _ | _
    · rcases hb2 : (W4630.body w n).2 with _ | _
      · rw [loop_halt w f n hs hb2]
        exact ⟨by simp_all [NoCreate], by simp_all [NoCreate]⟩
      · rw [loop_cont w f n hs hb2]
        constructor <;> simp_all [NoCreate]
    · rw [loop_stop w f n hs]
      exact ⟨by simp_all [NoCreate], by simp_all [NoCreate]⟩

/-- Allowed (non-context-creation) events, as a decidable check. -/
def evAllowed : Ev → Bool
  | Ev.createDefaultCtx => false
  | Ev.createUriCtx => false
  | _ => true

/-- Decidable form of `NoCreate`. -/
def noCreateB (l : List Ev) : Bool := l.all evAllowed

theorem NoCreate_of_noCreateB (l : List Ev) (hl : noCreateB l = true) : NoCreate l := by
  rw [noCreateB, List.all_eq_true] at hl
  constructor <;> (intro h; exact absurd (hl _ h) (by decide))

theorem noCreateB_configureTrxLo (w : WA) : noCreateB (WA.configureTrxLo w).1 = true := by
  simp only [WA.configureTrxLo]
  split_ifs <;> rfl

theorem noCreate_configureTrxLo (w : WA) : NoCreate (WA.configureTrxLo w).1 :=
  NoCreate_of_noCreateB _ (noCreateB_configureTrxLo w)

theorem noCreateB_configureTrxLoDds (w : WA) : noCreateB (WA.configureTrxLoDds w).1 = true := by
  simp only [WA.configureTrxLoDds]
  split_ifs <;> rfl

theorem noCreate_configureTrxLoDds (w : WA) : NoCreate (WA.configureTrxLoDds w).1 :=
  NoCreate_of_noCreateB _ (noCreateB_configureTrxLoDds w)

theorem noCreateB_ddsTonePair (w : WA) (nameI nameQ : String) (freq : Int) :
    noCreateB (WA.ddsTonePair w nameI nameQ freq).1 = true := by
  simp only [WA.ddsTonePair]
  split_ifs <;> rfl

set_option maxHeartbeats 1000000 in
theorem noCreateB_txDdsTonePair (w : WA) (nameI nameQ : String) (freq : Int) :
    noCreateB (WA.txDdsTonePair w nameI nameQ freq).1 = true := by
  simp only [WA.txDdsTonePair]
  split_ifs <;> rfl

theorem evAllowed_findDevice (n : String) : evAllowed (Ev.findDevice n) = true := rfl

theorem evAllowed_chanEnable (n : String) : evAllowed (Ev.chanEnable n) = true := rfl

theorem noCreateB_ddsSingleTone (w : WA) (freq : Int) (channel : Nat) :
    noCreateB (WA.ddsSingleTone w freq channel).1 = true := by
  have h1 := noCreateB_ddsTonePair w "altvoltage0" "altvoltage2" freq
  have h2 := noCreateB_ddsTonePair w "altvoltage4" "altvoltage6" freq
  unfold noCreateB at h1 h2 ⊢
  simp only [WA.ddsSingleTone]
  split_ifs <;>
    first
      | rfl
      | (split <;>
          simp_all [List.all_cons, List.all_append, evAllowed_findDevice, evAllowed_chanEnable])

theorem noCreate_ddsSingleTone (w : WA) (freq : Int) (channel : Nat) :
    NoCreate (WA.ddsSingleTone w freq channel).1 :=
  NoCreate_of_noCreateB _ (noCreateB_ddsSingleTone w freq channel)

theorem noCreateB_configureTxDds (w : WA) (freq : Int) (channel : Nat) :
    noCreateB (WA.configureTxDds w freq channel).1 = true := by
  have h1 := noCreateB_txDdsTonePair w "altvoltage0" "altvoltage2" freq
  have h2 := noCreateB_txDdsTonePair w "altvoltage4" "altvoltage6" freq
  unfold noCreateB at h1 h2 ⊢
  simp only [WA.configureTxDds]
  split_ifs <;>
    first
      | rfl
      | (split <;>
          simp_all [List.all_cons, List.all_append, evAllowed_findDevice, evAllowed_chanEnable])

theorem noCreate_configureTxDds (w : WA) (freq : Int) (channel : Nat) :
    NoCreate (WA.configureTxDds w freq channel).1 :=
  NoCreate_of_noCreateB _ (noCreateB_configureTxDds w freq channel)

theorem noCreateB_streamChannelsGetEnable (w : WA) (tx : Bool) :
    noCreateB (WA.streamChannelsGetEnable w tx).1 = true := by
  simp only [WA.streamChannelsGetEnable]
  split_ifs <;> rfl

theorem noCreate_streamChannelsGetEnable (w : WA) (tx : Bool) :
    NoCreate (WA.streamChannelsGetEnable w tx).1 :=
  NoCreate_of_noCreateB _ (noCreateB_streamChannelsGetEnable w tx)

theorem noCreateB_cleanupTrace (rxb txb rx0 rx1 tx0 tx1 : Bool) :
    noCreateB (WA.cleanupTrace rxb txb rx0 rx1 tx0 tx1) = true := by
  unfold WA.cleanupTrace
  split_ifs <;> rfl

theorem noCreate_cleanupTrace (rxb txb rx0 rx1 tx0 tx1 : Bool) :
    NoCreate (WA.cleanupTrace rxb txb rx0 rx1 tx0 tx1) :=
  NoCreate_of_noCreateB _ (noCreateB_cleanupTrace rxb txb rx0 rx1 tx0 tx1)

/-! Step equations for the adrv9002 `stream` loop. -/

theorem streamLoop_stop (w : WA) (f n : Nat) (hs : w.stopAt n = true) :
    WA.streamLoop w (f + 1) n = ([Ev.checkStop n true], WA.StreamRes.flagged) := by
  simp [WA.streamLoop, hs]

theorem streamLoop_err (w : WA) (f n : Nat) (hs : w.stopAt n = false)
    (hr : w.refillRet n < 0) :
    WA.streamLoop w (f + 1) n
      = ([Ev.checkStop n false, Ev.refill (w.refillRet n)], WA.StreamRes.errReturn) := by
  simp [WA.streamLoop, hs, hr]

theorem streamLoop_cont (w : WA) (f n : Nat) (hs : w.stopAt n = false)
    (hr : ¬ w.refillRet n < 0) :
    WA.streamLoop w (f + 1) n
      = (Ev.checkStop n false :: Ev.refill (w.refillRet n) :: Ev.bufStep :: Ev.bufEnd
          :: Ev.bufFirst :: (WA.streamLoop w f (n + 1)).1, (WA.streamLoop w f (n + 1)).2) := by
  simp [WA.streamLoop, hs, hr]

theorem noCreate_streamLoop (w : WA) (fuel n : Nat) : NoCreate (WA.streamLoop w fuel n).1 := by
  induction fuel generalizing n with
  | zero => exact ⟨by simp [WA.streamLoop], by simp [WA.streamLoop]⟩
  | succ f ih =>
    have hr := ih (n + 1)
    rcases hs : w.stopAt n with _ | _
    · by_cases hrf : w.refillRet n < 0
      · rw [streamLoop_err w f n hs hrf]
        exact ⟨by simp, by simp⟩
      · rw [streamLoop_cont w f n hs hrf]
        constructor <;> simp_all [NoCreate]
    · rw [streamLoop_stop w f n hs]
      exact ⟨by simp, by simp⟩

set_option maxHeartbeats 1000000 in
theorem noCreate_afterCtx (w : W4630) (fuel : Nat) : NoCreate (W4630.afterCtx w fuel).1 := by
  have hl := noCreate_loop w fuel 0
  have hs := noCreate_shutdownTrace false true true
  constructor <;>
    (intro h
     simp only [W4630.afterCtx, pre] at h
     split_ifs at h <;> simp_all [NoCreate])

set_option maxHeartbeats 1000000 in
theorem noCreate_mainAfterCtx (w : WA) (fuel : Nat) : NoCreate (WA.mainAfterCtx w fuel).1 := by
  have hcf := noCreate_configureTrxLo w
  have hd := noCreate_ddsSingleTone w 5000 0
  have hsg := noCreate_streamChannelsGetEnable w false
  have hsl := noCreate_streamLoop w fuel 0
  have hc1 := noCreate_cleanupTrace false false false false false false
  have hc2 := noCreate_cleanupTrace false false (WA.streamChannelsGetEnable w false).2.2.1
    (WA.streamChannelsGetEnable w false).2.2.2 false false
  have hc3 := noCreate_cleanupTrace false false true true false false
  have hc4 := noCreate_cleanupTrace true false true true false false
  constructor <;>
    (intro h
     simp only [WA.mainAfterCtx, pre] at h
     split at h <;> (try split_ifs at h) <;> simp_all [NoCreate])

set_option maxHeartbeats 1000000 in
theorem noCreate_mainDdsAfterCtx (w : WA) (fuel : Nat) :
    NoCreate (WA.mainDdsAfterCtx w fuel).1 := by
  have hcf := noCreate_configureTrxLoDds w
  have hd := noCreate_configureTxDds w 5000 0
  have hsg := noCreate_streamChannelsGetEnable w false
  have hsl := noCreate_streamLoop w fuel 0
  have hc1 := noCreate_cleanupTrace false false false false false false
  have hc2 := noCreate_cleanupTrace false false (WA.streamChannelsGetEnable w false).2.2.1
    (WA.streamChannelsGetEnable w false).2.2.2 false false
  have hc3 := noCreate_cleanupTrace false false true true false false
  have hc4 := noCreate_cleanupTrace true false true true false false
  constructor <;>
    (intro h
     simp only [WA.mainDdsAfterCtx, pre] at h
     split at h <;> (try split_ifs at h) <;> simp_all [NoCreate])

/-- C6: for each example, `main` with no argument acquires the context with
the default-context call (the program's very first library call), with
exactly one argument it acquires it from the URI-creation call, and in all
cases the other creation call never occurs anywhere in the execution and no
creation call at all occurs when more arguments are passed — for every
world, so nothing besides the argument count (and, for the adrv9002
examples, `register_signals` succeeding first) selects the creation call. -/
theorem c6_context_creation_by_argc :
    (∀ (w : W4630) (fuel : Nat), w.argc = 1 →
      (W4630.main w fuel).1.head? = some Ev.createDefaultCtx ∧
      Ev.createUriCtx ∉ (W4630.main w fuel).1) ∧
    (∀ (w : W4630) (fuel : Nat), w.argc = 2 →
      (W4630.main w fuel).1.head? = some Ev.createUriCtx ∧
      Ev.createDefaultCtx ∉ (W4630.main w fuel).1) ∧
    (∀ (w : W4630) (fuel : Nat), w.argc ≠ 1 → w.argc ≠ 2 →
      Ev.createDefaultCtx ∉ (W4630.main w fuel).1 ∧
      Ev.createUriCtx ∉ (W4630.main w fuel).1) ∧
    (∀ (w : WA) (fuel : Nat), w.regSigOk = true → w.argc = 1 →
      (WA.mainA w fuel).1.head? = some Ev.createDefaultCtx ∧
      Ev.createUriCtx ∉ (WA.mainA w fuel).1) ∧
    (∀ (w : WA) (fuel : Nat), w.regSigOk = true → w.argc = 2 →
      (WA.mainA w fuel).1.head? = some Ev.createUriCtx ∧
      Ev.createDefaultCtx ∉ (WA.mainA w fuel).1) ∧
    (∀ (w : WA) (fuel : Nat), w.argc ≠ 1 → w.argc ≠ 2 →
      Ev.createDefaultCtx ∉ (WA.mainA w fuel).1 ∧
      Ev.createUriCtx ∉ (WA.mainA w fuel).1) ∧
    (∀ (w : WA) (fuel : Nat), w.regSigOk = true → w.argc = 1 →
      (WA.mainDds w fuel).1.head? = some Ev.createDefaultCtx ∧
      Ev.createUriCtx ∉ (WA.mainDds w fuel).1) ∧
    (∀ (w : WA) (fuel : Nat), w.regSigOk = true → w.argc = 2 →
      (WA.mainDds w fuel).1.head? = some Ev.createUriCtx ∧
      Ev.createDefaultCtx ∉ (WA.mainDds w fuel).1) ∧
    (∀ (w : WA) (fuel : Nat), w.argc ≠ 1 → w.argc ≠ 2 →
      Ev.createDefaultCtx ∉ (WA.mainDds w fuel).1 ∧
      Ev.createUriCtx ∉ (WA.mainDds w fuel).1) := by
  refine ⟨?_, ?_, ?_, ?_, ?_, ?_, ?_, ?_, ?_⟩
  · intro w fuel h1
    have hnc := noCreate_afterCtx w fuel
    rcases hd : w.defaultCtxOk with _ | _
    · exact ⟨by simp [W4630.main, h1, hd], by simp [W4630.main, h1, hd]⟩
    · have ht : (W4630.main w fuel).1 = Ev.createDefaultCtx :: (W4630.afterCtx w fuel).1 := by
        simp [W4630.main, h1, hd, pre]
      rw [ht]
      refine ⟨rfl, ?_⟩
      intro hx
      rcases List.mem_cons.mp hx with hx | hx
      · simp at hx
      · exact hnc.2 hx
  · intro w fuel h1
    have hnc := noCreate_afterCtx w fuel
    rcases hd : w.uriCtxOk with _ | _
    · exact ⟨by simp [W4630.main, h1, hd], by simp [W4630.main, h1, hd]⟩
    · have ht : (W4630.main w fuel).1 = Ev.createUriCtx :: (W4630.afterCtx w fuel).1 := by
        simp [W4630.main, h1, hd, pre]
      rw [ht]
      refine ⟨rfl, ?_⟩
      intro hx
      rcases List.mem_cons.mp hx with hx | hx
      · simp at hx
      · exact hnc.1 hx
  · intro w fuel h1 h2
    have ht : (W4630.main w fuel).1 = [] := by simp [W4630.main, h1, h2]
    rw [ht]
    exact ⟨by simp, by simp⟩
  · intro w fuel hr h1
    have hnc := noCreate_mainAfterCtx w fuel
    rcases hd : w.defaultCtxOk with _ | _
    · exact ⟨by simp [WA.mainA, hr, h1, hd], by simp [WA.mainA, hr, h1, hd]⟩
    · have ht : (WA.mainA w fuel).1 = Ev.createDefaultCtx :: (WA.mainAfterCtx w fuel).1 := by
        simp [WA.mainA, hr, h1, hd, pre]
      rw [ht]
      refine ⟨rfl, ?_⟩
      intro hx
      rcases List.mem_cons.mp hx with hx | hx
      · simp at hx
      · exact hnc.2 hx
  · intro w fuel hr h1
    have hnc := noCreate_mainAfterCtx w fuel
    rcases hd : w.uriCtxOk with _ | _
    · exact ⟨by simp [WA.mainA, hr, h1, hd], by simp [WA.mainA, hr, h1, hd]⟩
    · have ht : (WA.mainA w fuel).1 = Ev.createUriCtx :: (WA.mainAfterCtx w fuel).1 := by
        simp [WA.mainA, hr, h1, hd, pre]
      rw [ht]
      refine ⟨rfl, ?_⟩
      intro hx
      rcases List.mem_cons.mp hx with hx | hx
      · simp at hx
      · exact hnc.1 hx
  · intro w fuel h1 h2
    rcases hr : w.regSigOk with _ | _
    · have ht : (WA.mainA w fuel).1 = [] := by simp [WA.mainA, hr]
      rw [ht]
      exact ⟨by simp, by simp⟩
    · have ht : (WA.mainA w fuel).1 = [] := by simp [WA.mainA, hr, h1, h2]
      rw [ht]
      exact ⟨by simp, by simp⟩
  · intro w fuel hr h1
    have hnc := noCreate_mainDdsAfterCtx w fuel
    rcases hd : w.defaultCtxOk with _ | _
    · exact ⟨by simp [WA.mainDds, hr, h1, hd], by simp [WA.mainDds, hr, h1, hd]⟩
    · have ht : (WA.mainDds w fuel).1
          = Ev.createDefaultCtx :: (WA.mainDdsAfterCtx w fuel).1 := by
        simp [WA.mainDds, hr, h1, hd, pre]
      rw [ht]
      refine ⟨rfl, ?_⟩
      intro hx
      rcases List.mem_cons.mp hx with hx | hx
      · simp at hx
      · exact hnc.2 hx
  · intro w fuel hr h1
    have hnc := noCreate_mainDdsAfterCtx w fuel
    rcases hd : w.uriCtxOk with _ | _
    · exact ⟨by simp [WA.mainDds, hr, h1, hd], by simp [WA.mainDds, hr, h1, hd]⟩
    · have ht : (WA.mainDds w fuel).1 = Ev.createUriCtx :: (WA.mainDdsAfterCtx w fuel).1 := by
        simp [WA.mainDds, hr, h1, hd, pre]
      rw [ht]
      refine ⟨rfl, ?_⟩
      intro hx
      rcases List.mem_cons.mp hx with hx | hx
      · simp at hx
      · exact hnc.1 hx
  · intro w fuel h1 h2
    rcases hr : w.regSigOk with _ | _
    · have ht : (WA.mainDds w fuel).1 = [] := by simp [WA.mainDds, hr]
      rw [ht]
      exact ⟨by simp, by simp⟩
    · have ht : (WA.mainDds w fuel).1 = [] := by simp [WA.mainDds, hr, h1, h2]
      rw [ht]
      exact ⟨by simp, by simp⟩

/-! ## Counting refills and stop-flag checks (C5) -/

/-- Is the event a buffer refill? -/
def isRefillEv : Ev → Bool
  | Ev.refill _ => true
  | _ => false

/-- Is the event the stop-flag test of iteration `m`? -/
def isCheckAt (m : Nat) : Ev → Bool
  | Ev.checkStop k _ => k == m
  | _ => false

/-- Number of `iio_buffer_refill` calls in a trace. -/
def countRefill (l : List Ev) : Nat := l.countP fun e => isRefillEv e

/-- Number of stop-flag tests for iteration `m` in a trace. -/
def countCheckAt (m : Nat) (l : List Ev) : Nat := l.countP fun e => isCheckAt m e

theorem countRefill_body (w : W4630) (n : Nat) : countRefill (W4630.body w n).1 = 1 := by
  unfold W4630.body
  by_cases h1 : w.refillRet n < 0 <;> by_cases h2 : w.vcomRet n < 0 <;>
    by_cases h3 : w.mallocOk n <;>
    simp [h1, h2, h3, countRefill, isRefillEv, W4630.shutdownTrace]

theorem countCheckAt_body (w : W4630) (n m : Nat) : countCheckAt m (W4630.body w n).1 = 0 := by
  unfold W4630.body
  by_cases h1 : w.refillRet n < 0 <;> by_cases h2 : w.vcomRet n < 0 <;>
    by_cases h3 : w.mallocOk n <;>
    simp [h1, h2, h3, countCheckAt, isCheckAt, W4630.shutdownTrace]

theorem countRefill_postLoop (w : W4630) : countRefill (W4630.postLoop w) = 0 := by
  unfold W4630.postLoop W4630.shutdownTrace
  simp [countRefill, isRefillEv]

theorem countCheckAt_postLoop (w : W4630) (m : Nat) : countCheckAt m (W4630.postLoop w) = 0 := by
  unfold W4630.postLoop W4630.shutdownTrace
  simp [countCheckAt, isCheckAt]

theorem countRefill_cons (e : Ev) (l : List Ev) :
    countRefill (e :: l) = countRefill l + (if isRefillEv e = true then 1 else 0) := by
  simp [countRefill, List.countP_cons]

theorem countRefill_append (l1 l2 : List Ev) :
    countRefill (l1 ++ l2) = countRefill l1 + countRefill l2 := by
  simp [countRefill]

theorem countCheckAt_cons (m : Nat) (e : Ev) (l : List Ev) :
    countCheckAt m (e :: l) = countCheckAt m l + (if isCheckAt m e = true then 1 else 0) := by
  simp [countCheckAt, List.countP_cons]

theorem countCheckAt_append (m : Nat) (l1 l2 : List Ev) :
    countCheckAt m (l1 ++ l2) = countCheckAt m l1 + countCheckAt m l2 := by
  simp [countCheckAt]

theorem isRefillEv_checkStop (n : Nat) (b : Bool) : isRefillEv (Ev.checkStop n b) = false := rfl

theorem isCheckAt_checkStop (m n : Nat) (b : Bool) :
    isCheckAt m (Ev.checkStop n b) = (n == m) := rfl

/-- A flag that is only ever set stays set. -/
theorem stop_stays (stopAt : Nat → Bool)
    (hmono : ∀ k, stopAt k = true → stopAt (k + 1) = true)
    {N m : Nat} (hN : stopAt N = true) (h : N ≤ m) : stopAt m = true := by
  have hd : ∀ d, stopAt (N + d) = true := by
    intro d
    induction d with
    | zero => simpa using hN
    | succ d ih => exact hmono _ ih
  have := hd (m - N)
  rwa [Nat.add_sub_cancel' h] at this

theorem countRefill_loop (w : W4630)
    (hmono : ∀ k, w.stopAt k = true → w.stopAt (k + 1) = true) :
    ∀ (fuel n N : Nat), w.stopAt N = true → n ≤ N →
      countRefill (W4630.loop w fuel n).1 ≤ N - n := by
  intro fuel
  induction fuel with
  | zero => intro n N _ _; simp [W4630.loop, countRefill]
  | succ f ih =>
    intro n N hN hnN
    rcases hs : w.stopAt n with _ | _
    · have hlt : n < N := by
        rcases Nat.lt_or_ge n N with h | h
        · exact h
        · exact absurd (stop_stays w.stopAt hmono hN h) (by simp [hs])
      rcases hb : (W4630.body w n).2 with _ | _
      · rw [loop_halt w f n hs hb]
        dsimp only
        rw [countRefill_cons, countRefill_body, isRefillEv_checkStop]
        simp
        omega
      · rw [loop_cont w f n hs hb]
        dsimp only
        rw [countRefill_append, countRefill_cons, countRefill_body, isRefillEv_checkStop]
        have h2 := ih (n + 1) N hN hlt
        simp
        omega
    · rw [loop_stop w f n hs]
      dsimp only
      rw [countRefill_cons, countRefill_postLoop, isRefillEv_checkStop]
      simp

theorem countCheckAt_loop_lt (w : W4630) :
    ∀ (fuel n m : Nat), m < n → countCheckAt m (W4630.loop w fuel n).1 = 0 := by
  intro fuel
  induction fuel with
  | zero => intro n m _; simp [W4630.loop, countCheckAt]
  | succ f ih =>
    intro n m hm
    have hne : (n == m) = false := by simp; omega
    rcases hs : w.stopAt n with _ | _
    · rcases hb : (W4630.body w n).2 with _ | _
      · rw [loop_halt w f n hs hb]
        dsimp only
        rw [countCheckAt_cons, countCheckAt_body, isCheckAt_checkStop, hne]
        simp
      · rw [loop_cont w f n hs hb]
        dsimp only
        rw [countCheckAt_append, countCheckAt_cons, countCheckAt_body, isCheckAt_checkStop,
          hne, ih (n + 1) m (Nat.lt_succ_of_lt hm)]
        simp
    · rw [loop_stop w f n hs]
      dsimp only
      rw [countCheckAt_cons, countCheckAt_postLoop, isCheckAt_checkStop, hne]
      simp

theorem countCheckAt_loop_le_one (w : W4630) :
    ∀ (fuel n m : Nat), countCheckAt m (W4630.loop w fuel n).1 ≤ 1 := by
  intro fuel
  induction fuel with
  | zero => intro n m; simp [W4630.loop, countCheckAt]
  | succ f ih =>
    intro n m
    rcases hs : w.stopAt n with _ | _
    · rcases hb : (W4630.body w n).2 with _ | _
      · rw [loop_halt w f n hs hb]
        dsimp only
        rw [countCheckAt_cons, countCheckAt_body, isCheckAt_checkStop]
        split <;> omega
      · rw [loop_cont w f n hs hb]
        dsimp only
        rw [countCheckAt_append, countCheckAt_cons, countCheckAt_body, isCheckAt_checkStop]
        rcases Nat.lt_or_ge m (n + 1) with hm | hm
        · rw [countCheckAt_loop_lt w f (n + 1) m hm]
          split <;> omega
        · have hne : (n == m) = false := by simp; omega
          rw [hne]
          have h2 := ih (n + 1) m
          simp
          omega
    · rw [loop_stop w f n hs]
      dsimp only
      rw [countCheckAt_cons, countCheckAt_postLoop, isCheckAt_checkStop]
      split <;> omega

theorem countCheckAt_loop_self (w : W4630) (fuel n : Nat) :
    countCheckAt n (W4630.loop w (fuel + 1) n).1 = 1 := by
  have hb1 : (n == n) = true := by simp
  rcases hs : w.stopAt n with _ | _
  · rcases hb : (W4630.body w n).2 with _ | _
    · rw [loop_halt w fuel n hs hb]
      dsimp only
      rw [countCheckAt_cons, countCheckAt_body, isCheckAt_checkStop, hb1]
      simp
    · rw [loop_cont w fuel n hs hb]
      dsimp only
      rw [countCheckAt_append, countCheckAt_cons, countCheckAt_body, isCheckAt_checkStop,
        hb1, countCheckAt_loop_lt w fuel (n + 1) n (Nat.lt_succ_self n)]
      simp
  · rw [loop_stop w fuel n hs]
    dsimp only
    rw [countCheckAt_cons, countCheckAt_postLoop, isCheckAt_checkStop, hb1]
    simp

theorem isRefillEv_refill (r : Int) : isRefillEv (Ev.refill r) = true := rfl

theorem isRefillEv_bufStep : isRefillEv Ev.bufStep = false := rfl

theorem isRefillEv_bufEnd : isRefillEv Ev.bufEnd = false := rfl

theorem isRefillEv_bufFirst : isRefillEv Ev.bufFirst = false := rfl

theorem isCheckAt_refill (m : Nat) (r : Int) : isCheckAt m (Ev.refill r) = false := rfl

theorem isCheckAt_bufStep (m : Nat) : isCheckAt m Ev.bufStep = false := rfl

theorem isCheckAt_bufEnd (m : Nat) : isCheckAt m Ev.bufEnd = false := rfl

theorem isCheckAt_bufFirst (m : Nat) : isCheckAt m Ev.bufFirst = false := rfl

theorem countRefill_streamLoop (w : WA)
    (hmono : ∀ k, w.stopAt k = true → w.stopAt (k + 1) = true) :
    ∀ (fuel n N : Nat), w.stopAt N = true → n ≤ N →
      countRefill (WA.streamLoop w fuel n).1 ≤ N - n := by
  intro fuel
  induction fuel with
  | zero => intro n N _ _; simp [WA.streamLoop, countRefill]
  | succ f ih =>
    intro n N hN hnN
    rcases hs : w.stopAt n with _ | _
    · have hlt : n < N := by
        rcases Nat.lt_or_ge n N with h | h
        · exact h
        · exact absurd (stop_stays w.stopAt hmono hN h) (by simp [hs])
      by_cases hr : w.refillRet n < 0
      · rw [streamLoop_err w f n hs hr]
        dsimp only
        rw [countRefill_cons, countRefill_cons, isRefillEv_checkStop, isRefillEv_refill]
        simp [countRefill]
        omega
      · rw [streamLoop_cont w f n hs hr]
        dsimp only
        rw [countRefill_cons, countRefill_cons, countRefill_cons, countRefill_cons,
          countRefill_cons, isRefillEv_checkStop, isRefillEv_refill, isRefillEv_bufStep,
          isRefillEv_bufEnd, isRefillEv_bufFirst]
        have h2 := ih (n + 1) N hN hlt
        simp
        omega
    · rw [streamLoop_stop w f n hs]
      simp [countRefill, isRefillEv]

theorem countCheckAt_streamLoop_lt (w : WA) :
    ∀ (fuel n m : Nat), m < n → countCheckAt m (WA.streamLoop w fuel n).1 = 0 := by
  intro fuel
  induction fuel with
  | zero => intro n m _; simp [WA.streamLoop, countCheckAt]
  | succ f ih =>
    intro n m hm
    have hne : (n == m) = false := by simp; omega
    rcases hs : w.stopAt n with _ | _
    · by_cases hr : w.refillRet n < 0
      · rw [streamLoop_err w f n hs hr]
        dsimp only
        rw [countCheckAt_cons, countCheckAt_cons, isCheckAt_checkStop, isCheckAt_refill, hne]
        simp [countCheckAt]
      · rw [streamLoop_cont w f n hs hr]
        dsimp only
        rw [countCheckAt_cons, countCheckAt_cons, countCheckAt_cons, countCheckAt_cons,
          countCheckAt_cons, isCheckAt_checkStop, isCheckAt_refill, isCheckAt_bufStep,
          isCheckAt_bufEnd, isCheckAt_bufFirst, hne, ih (n + 1) m (Nat.lt_succ_of_lt hm)]
        simp
    · rw [streamLoop_stop w f n hs]
      dsimp only
      rw [countCheckAt_cons, isCheckAt_checkStop, hne]
      simp [countCheckAt]

theorem countCheckAt_streamLoop_le_one (w : WA) :
    ∀ (fuel n m : Nat), countCheckAt m (WA.streamLoop w fuel n).1 ≤ 1 := by
  intro fuel
  induction fuel with
  | zero => intro n m; simp [WA.streamLoop, countCheckAt]
  | succ f ih =>
    intro n m
    rcases hs : w.stopAt n with _ | _
    · by_cases hr : w.refillRet n < 0
      · rw [streamLoop_err w f n hs hr]
        dsimp only
        rw [countCheckAt_cons, countCheckAt_cons, isCheckAt_checkStop, isCheckAt_refill]
        rcases hnm : n == m with _ | _ <;> simp [countCheckAt]
      · rw [streamLoop_cont w f n hs hr]
        dsimp only
        rw [countCheckAt_cons, countCheckAt_cons, countCheckAt_cons, countCheckAt_cons,
          countCheckAt_cons, isCheckAt_checkStop, isCheckAt_refill, isCheckAt_bufStep,
          isCheckAt_bufEnd, isCheckAt_bufFirst]
        rcases Nat.lt_or_ge m (n + 1) with hm | hm
        · rw [countCheckAt_streamLoop_lt w f (n + 1) m hm]
          rcases hnm : n == m with _ | _ <;> simp
        · have hne : (n == m) = false := by simp; omega
          rw [hne]
          have h2 := ih (n + 1) m
          simp
          omega
    · rw [streamLoop_stop w f n hs]
      dsimp only
      rw [countCheckAt_cons, isCheckAt_checkStop]
      rcases hnm : n == m with _ | _ <;> simp [countCheckAt]

theorem countCheckAt_streamLoop_self (w : WA) (fuel n : Nat) :
    countCheckAt n (WA.streamLoop w (fuel + 1) n).1 = 1 := by
  have hb1 : (n == n) = true := by simp
  rcases hs : w.stopAt n with _ | _
  · by_cases hr : w.refillRet n < 0
    · rw [streamLoop_err w fuel n hs hr]
      dsimp only
      rw [countCheckAt_cons, countCheckAt_cons, isCheckAt_checkStop, isCheckAt_refill, hb1]
      simp [countCheckAt]
    · rw [streamLoop_cont w fuel n hs hr]
      dsimp only
      rw [countCheckAt_cons, countCheckAt_cons, countCheckAt_cons, countCheckAt_cons,
        countCheckAt_cons, isCheckAt_checkStop, isCheckAt_refill, isCheckAt_bufStep,
        isCheckAt_bufEnd, isCheckAt_bufFirst, hb1,
        countCheckAt_streamLoop_lt w fuel (n + 1) n (Nat.lt_succ_self n)]
      simp
  · rw [streamLoop_stop w fuel n hs]
    dsimp only
    rw [countCheckAt_cons, isCheckAt_checkStop, hb1]
    simp [countCheckAt]

/-- C5: in the streaming loops (ad4630 `main`, lines 253-337, and the
adrv9002 `stream`, lines 726-776), the stop flag is tested exactly once per
iteration (each iteration index is tested exactly once when reached and
never more than once over the whole run); once the flag is observed set the
loop performs no further work — for the ad4630 loop the remaining trace is
exactly the register-restore-plus-`shutdown` teardown `postLoop`, and for
adrv9002 `stream` the loop returns immediately — and when the signal
handler sets the (sticky) flag by iteration `N`, the whole run performs at
most `N` buffer refills, hence never refills after the flag is observed. -/
theorem c5_stop_flag_checked_once :
    (∀ (w : W4630) (fuel n : Nat), w.stopAt n = true →
      W4630.loop w (fuel + 1) n
        = (Ev.checkStop n true :: W4630.postLoop w, Outcome.exited 0)) ∧
    (∀ (w : W4630) (fuel n : Nat), countCheckAt n (W4630.loop w (fuel + 1) n).1 = 1) ∧
    (∀ (w : W4630) (fuel n m : Nat), countCheckAt m (W4630.loop w fuel n).1 ≤ 1) ∧
    (∀ (w : W4630) (fuel N : Nat),
      (∀ k, w.stopAt k = true → w.stopAt (k + 1) = true) → w.stopAt N = true →
      countRefill (W4630.loop w fuel 0).1 ≤ N) ∧
    (∀ (w : WA) (fuel n : Nat), w.stopAt n = true →
      WA.streamLoop w (fuel + 1) n = ([Ev.checkStop n true], WA.StreamRes.flagged)) ∧
    (∀ (w : WA) (fuel n : Nat), countCheckAt n (WA.streamLoop w (fuel + 1) n).1 = 1) ∧
    (∀ (w : WA) (fuel n m : Nat), countCheckAt m (WA.streamLoop w fuel n).1 ≤ 1) ∧
    (∀ (w : WA) (fuel N : Nat),
      (∀ k, w.stopAt k = true → w.stopAt (k + 1) = true) → w.stopAt N = true →
      countRefill (WA.streamLoop w fuel 0).1 ≤ N) := by
  refine ⟨?_, ?_, ?_, ?_, ?_, ?_, ?_, ?_⟩
  · intro w fuel n hs
    exact loop_stop w fuel n hs
  · intro w fuel n
    exact countCheckAt_loop_self w fuel n
  · intro w fuel n m
    exact countCheckAt_loop_le_one w fuel n m
  · intro w fuel N hmono hN
    have := countRefill_loop w hmono fuel 0 N hN (Nat.zero_le N)
    simpa using this
  · intro w fuel n hs
    exact streamLoop_stop w fuel n hs
  · intro w fuel n
    exact countCheckAt_streamLoop_self w fuel n
  · intro w fuel n m
    exact countCheckAt_streamLoop_le_one w fuel n m
  · intro w fuel N hmono hN
    have := countRefill_streamLoop w hmono fuel 0 N hN (Nat.zero_le N)
    simpa using this

/-- Concrete world for the C5 witness: the signal arrives before the second
iteration's flag test. -/
def w4630Sig : W4630 :=
  { w4630RegFail with regWriteRet := 0, stopAt := fun k => k != 0 }

/-- Witness for C5 at a world whose flag is set from iteration 1 on. -/
theorem c5_witness :
    W4630.loop w4630Sig (2 + 1) 1
        = (Ev.checkStop 1 true :: W4630.postLoop w4630Sig, Outcome.exited 0) ∧
    countRefill (W4630.loop w4630Sig 4 0).1 ≤ 1 ∧
    countCheckAt 0 (W4630.loop w4630Sig 4 0).1 ≤ 1 := by
  refine ⟨c5_stop_flag_checked_once.1 w4630Sig 2 1 (by decide), ?_, ?_⟩
  · exact c5_stop_flag_checked_once.2.2.2.1 w4630Sig 4 1
      (by
        intro k hk
        show (k + 1 != 0) = true
        simp)
      (by decide)
  · exact c5_stop_flag_checked_once.2.2.1 w4630Sig 4 0 0

/-! ## First-failure analysis of the streaming loops (C1) -/

/-- Iteration `k` of the ad4630 loop runs to completion and continues: the
flag is unset and the refill, common-mode read and malloc all succeed. -/
def GoodIter (w : W4630) (k : Nat) : Prop :=
  w.stopAt k = false ∧ 0 ≤ w.refillRet k ∧ 0 ≤ w.vcomRet k ∧ w.mallocOk k = true

theorem body_cont_of_good (w : W4630) (k : Nat) (h : GoodIter w k) :
    (W4630.body w k).2 = true := by
  obtain ⟨hs, h1, h2, h3⟩ := h
  unfold W4630.body
  rw [if_neg (by omega), if_neg (by omega), if_neg (by simp [h3])]

theorem loop_skip (w : W4630) : ∀ (m fuel n : Nat),
    (∀ k, n ≤ k → k < n + m → GoodIter w k) → m < fuel →
    ∃ p, (W4630.loop w fuel n).1 = p ++ (W4630.loop w (fuel - m) (n + m)).1 ∧
      (W4630.loop w fuel n).2 = (W4630.loop w (fuel - m) (n + m)).2 := by
  intro m
  induction m with
  | zero => intro fuel n _ _; exact ⟨[], by simp, by simp⟩
  | succ m ih =>
    intro fuel n hg hm
    obtain ⟨f, rfl⟩ : ∃ f, fuel = f + 1 := ⟨fuel - 1, by omega⟩
    have hgn := hg n (le_refl n) (by omega)
    have hb := body_cont_of_good w n hgn
    have hcont := loop_cont w f n hgn.1 hb
    obtain ⟨p, hp1, hp2⟩ :=
      ih f (n + 1) (fun k hk1 hk2 => hg k (by omega) (by omega)) (by omega)
    have hidx : n + 1 + m = n + (m + 1) := by omega
    have hfuel : f - m = f + 1 - (m + 1) := by omega
    rw [hidx, hfuel] at hp1 hp2
    refine ⟨(Ev.checkStop n false :: (W4630.body w n).1) ++ p, ?_, ?_⟩
    · rw [hcont]
      dsimp only
      rw [hp1, List.append_assoc]
    · rw [hcont]
      dsimp only
      rw [hp2]

/-- Iteration `k` of the adrv9002 `stream` loop continues. -/
def GoodIterA (w : WA) (k : Nat) : Prop :=
  w.stopAt k = false ∧ 0 ≤ w.refillRet k

theorem streamLoop_skip (w : WA) : ∀ (m fuel n : Nat),
    (∀ k, n ≤ k → k < n + m → GoodIterA w k) → m < fuel →
    ∃ p, (WA.streamLoop w fuel n).1 = p ++ (WA.streamLoop w (fuel - m) (n + m)).1 ∧
      (WA.streamLoop w fuel n).2 = (WA.streamLoop w (fuel - m) (n + m)).2 := by
  intro m
  induction m with
  | zero => intro fuel n _ _; exact ⟨[], by simp, by simp⟩
  | succ m ih =>
    intro fuel n hg hm
    obtain ⟨f, rfl⟩ : ∃ f, fuel = f + 1 := ⟨fuel - 1, by omega⟩
    have hgn := hg n (le_refl n) (by omega)
    have hcont := streamLoop_cont w f n hgn.1 (by have := hgn.2; omega)
    obtain ⟨p, hp1, hp2⟩ :=
      ih f (n + 1) (fun k hk1 hk2 => hg k (by omega) (by omega)) (by omega)
    have hidx : n + 1 + m = n + (m + 1) := by omega
    have hfuel : f - m = f + 1 - (m + 1) := by omega
    rw [hidx, hfuel] at hp1 hp2
    refine ⟨[Ev.checkStop n false, Ev.refill (w.refillRet n), Ev.bufStep, Ev.bufEnd,
      Ev.bufFirst] ++ p, ?_, ?_⟩
    · rw [hcont]
      dsimp only
      rw [hp1]
      simp
    · rw [hcont]
      dsimp only
      rw [hp2]

/-- When the whole setup succeeds, ad4630 `main` is the fixed setup prefix
followed by the streaming loop. -/
theorem main_stream (w : W4630) (fuel : Nat) (h1 : w.argc = 1) (h2 : w.defaultCtxOk = true)
    (h3 : 0 < w.devicesCount) (h4 : w.devFound = true) (h5 : w.chanFound = true)
    (h6 : w.bufOk = true) :
    W4630.main w fuel
      = ([Ev.createDefaultCtx, Ev.getDevicesCount, Ev.findDevice "ad4630",
          Ev.regWrite MODES_REG modesRegVal w.regWriteRet, Ev.regRead MODES_REG w.regReadRet,
          Ev.findDevice "ad4630", Ev.findChannel (chName CHANNEL_NUMBER) false,
          Ev.findChannel (chName CHANNEL_NUMBER) false, Ev.chanEnable (chName CHANNEL_NUMBER),
          Ev.createBuffer] ++ (W4630.loop w fuel 0).1, (W4630.loop w fuel 0).2) := by
  simp [W4630.main, W4630.afterCtx, pre, h1, h2, h3, h4, h5, h6]

/-- C1 (amended): every failed device/channel lookup and every negative
return code from a checked call still stops the program at once — a failed
context creation, empty context, device lookup or channel lookup aborts via
`IIO_ENSURE`; a failed buffer creation, buffer refill or `errchk`-wrapped
attribute read runs `shutdown` (cleanup and `exit(0)`) immediately, with no
further call before the teardown — but the register write/read return codes
are ignored (the program reaches its normal exit unchanged whatever
`iio_device_reg_write` returns), and in the adrv9002 `stream` loop a failed
refill merely returns from the loop, after which `main` continues into its
normal teardown. -/
theorem c1_amended_checked_failures_stop_execution :
    (∀ (w : W4630) (fuel : Nat), w.argc = 1 → w.defaultCtxOk = false →
      (W4630.main w fuel).2 = Outcome.aborted) ∧
    (∀ (w : W4630) (fuel : Nat), w.argc = 1 → w.defaultCtxOk = true → w.devicesCount = 0 →
      (W4630.main w fuel).2 = Outcome.aborted) ∧
    (∀ (w : W4630) (fuel : Nat), w.argc = 1 → w.defaultCtxOk = true → 0 < w.devicesCount →
      w.devFound = false → (W4630.main w fuel).2 = Outcome.aborted) ∧
    (∀ (w : W4630) (fuel : Nat), w.argc = 1 → w.defaultCtxOk = true → 0 < w.devicesCount →
      w.devFound = true → w.chanFound = false → (W4630.main w fuel).2 = Outcome.aborted) ∧
    (∀ (w : W4630) (fuel : Nat), w.argc = 1 → w.defaultCtxOk = true → 0 < w.devicesCount →
      w.devFound = true → w.chanFound = true → w.bufOk = false →
      (W4630.main w fuel).2 = Outcome.exited 0 ∧
      (∃ p, (W4630.main w fuel).1
          = p ++ Ev.createBuffer :: W4630.shutdownTrace false true true) ∧
      countRefill (W4630.main w fuel).1 = 0) ∧
    (∀ (w : W4630) (fuel n : Nat), w.argc = 1 → w.defaultCtxOk = true → 0 < w.devicesCount →
      w.devFound = true → w.chanFound = true → w.bufOk = true →
      (∀ k, k < n → GoodIter w k) → w.stopAt n = false → w.refillRet n < 0 → n < fuel →
      (W4630.main w fuel).2 = Outcome.exited 0 ∧
      ∃ p, (W4630.main w fuel).1
          = p ++ Ev.refill (w.refillRet n) :: W4630.shutdownTrace true true true) ∧
    (∀ (w : W4630) (fuel n : Nat), w.argc = 1 → w.defaultCtxOk = true → 0 < w.devicesCount →
      w.devFound = true → w.chanFound = true → w.bufOk = true →
      (∀ k, k < n → GoodIter w k) → w.stopAt n = false → 0 ≤ w.refillRet n →
      w.vcomRet n < 0 → n < fuel →
      (W4630.main w fuel).2 = Outcome.exited 0 ∧
      ∃ p, (W4630.main w fuel).1
          = p ++ Ev.attrReadLL (chName CHANNEL_NUMBER) "common_mode_voltage" (w.vcomRet n)
              :: W4630.shutdownTrace true true true) ∧
    (∀ (w : W4630) (fuel : Nat), w.argc = 1 → w.defaultCtxOk = true → 0 < w.devicesCount →
      w.devFound = true → w.chanFound = true → w.bufOk = true → w.stopAt 0 = true →
      0 < fuel → (W4630.main w fuel).2 = Outcome.exited 0) ∧
    (∀ (w : WA) (fuel n : Nat), (∀ k, k < n → GoodIterA w k) → w.stopAt n = false →
      w.refillRet n < 0 → n < fuel →
      (WA.streamLoop w fuel 0).2 = WA.StreamRes.errReturn ∧
      ∃ p, (WA.streamLoop w fuel 0).1
          = p ++ [Ev.checkStop n false, Ev.refill (w.refillRet n)]) := by
  refine ⟨?_, ?_, ?_, ?_, ?_, ?_, ?_, ?_, ?_⟩
  · intro w fuel h1 h2
    simp [W4630.main, h1, h2]
  · intro w fuel h1 h2 h3
    simp [W4630.main, W4630.afterCtx, pre, h1, h2, h3]
  · intro w fuel h1 h2 h3 h4
    simp [W4630.main, W4630.afterCtx, pre, h1, h2, h3, h4]
  · intro w fuel h1 h2 h3 h4 h5
    simp [W4630.main, W4630.afterCtx, pre, h1, h2, h3, h4, h5]
  · intro w fuel h1 h2 h3 h4 h5 h6
    refine ⟨by simp [W4630.main, W4630.afterCtx, pre, h1, h2, h3, h4, h5, h6], ?_, ?_⟩
    · refine ⟨[Ev.createDefaultCtx, Ev.getDevicesCount, Ev.findDevice "ad4630",
        Ev.regWrite MODES_REG modesRegVal w.regWriteRet, Ev.regRead MODES_REG w.regReadRet,
        Ev.findDevice "ad4630", Ev.findChannel (chName CHANNEL_NUMBER) false,
        Ev.findChannel (chName CHANNEL_NUMBER) false, Ev.chanEnable (chName CHANNEL_NUMBER)],
        ?_⟩
      simp [W4630.main, W4630.afterCtx, pre, h1, h2, h3, h4, h5, h6]
    · have ht : (W4630.main w fuel).1
          = [Ev.createDefaultCtx, Ev.getDevicesCount, Ev.findDevice "ad4630",
            Ev.regWrite MODES_REG modesRegVal w.regWriteRet, Ev.regRead MODES_REG w.regReadRet,
            Ev.findDevice "ad4630", Ev.findChannel (chName CHANNEL_NUMBER) false,
            Ev.findChannel (chName CHANNEL_NUMBER) false, Ev.chanEnable (chName CHANNEL_NUMBER),
            Ev.createBuffer] ++ W4630.shutdownTrace false true true := by
        simp [W4630.main, W4630.afterCtx, pre, h1, h2, h3, h4, h5, h6]
      rw [ht]
      simp [countRefill, isRefillEv, W4630.shutdownTrace]
  · intro w fuel n h1 h2 h3 h4 h5 h6 hg hs hr hn
    have hms := main_stream w fuel h1 h2 h3 h4 h5 h6
    obtain ⟨p, hp1, hp2⟩ := loop_skip w n fuel 0 (fun k _ hk => hg k (by omega)) hn
    obtain ⟨f2, hf2⟩ : ∃ f2, fuel - n = f2 + 1 := ⟨fuel - n - 1, by omega⟩
    have hb2 : (W4630.body w n).2 = false := by
      unfold W4630.body
      rw [if_pos hr]
    have hb1 : (W4630.body w n).1
        = Ev.refill (w.refillRet n) :: W4630.shutdownTrace true true true := by
      unfold W4630.body
      rw [if_pos hr]
      simp
    have hhalt := loop_halt w f2 n hs hb2
    rw [hf2] at hp1 hp2
    simp only [Nat.zero_add] at hp1 hp2
    constructor
    · rw [hms]
      dsimp only
      rw [hp2, hhalt]
    · refine ⟨[Ev.createDefaultCtx, Ev.getDevicesCount, Ev.findDevice "ad4630",
        Ev.regWrite MODES_REG modesRegVal w.regWriteRet, Ev.regRead MODES_REG w.regReadRet,
        Ev.findDevice "ad4630", Ev.findChannel (chName CHANNEL_NUMBER) false,
        Ev.findChannel (chName CHANNEL_NUMBER) false, Ev.chanEnable (chName CHANNEL_NUMBER),
        Ev.createBuffer] ++ p ++ [Ev.checkStop n false], ?_⟩
      rw [hms]
      dsimp only
      rw [hp1, hhalt]
      dsimp only
      rw [hb1]
      simp
  · intro w fuel n h1 h2 h3 h4 h5 h6 hg hs hr hv hn
    have hms := main_stream w fuel h1 h2 h3 h4 h5 h6
    obtain ⟨p, hp1, hp2⟩ := loop_skip w n fuel 0 (fun k _ hk => hg k (by omega)) hn
    obtain ⟨f2, hf2⟩ : ∃ f2, fuel - n = f2 + 1 := ⟨fuel - n - 1, by omega⟩
    have hb2 : (W4630.body w n).2 = false := by
      unfold W4630.body
      rw [if_neg (by omega), if_pos hv]
    have hb1 : (W4630.body w n).1
        = Ev.refill (w.refillRet n)
            :: Ev.attrReadLL (chName CHANNEL_NUMBER) "common_mode_voltage" (w.vcomRet n)
            :: W4630.shutdownTrace true true true := by
      unfold W4630.body
      rw [if_neg (by omega), if_pos hv]
      simp
    have hhalt := loop_halt w f2 n hs hb2
    rw [hf2] at hp1 hp2
    simp only [Nat.zero_add] at hp1 hp2
    constructor
    · rw [hms]
      dsimp only
      rw [hp2, hhalt]
    · refine ⟨[Ev.createDefaultCtx, Ev.getDevicesCount, Ev.findDevice "ad4630",
        Ev.regWrite MODES_REG modesRegVal w.regWriteRet, Ev.regRead MODES_REG w.regReadRet,
        Ev.findDevice "ad4630", Ev.findChannel (chName CHANNEL_NUMBER) false,
        Ev.findChannel (chName CHANNEL_NUMBER) false, Ev.chanEnable (chName CHANNEL_NUMBER),
        Ev.createBuffer] ++ p
          ++ [Ev.checkStop n false, Ev.refill (w.refillRet n)], ?_⟩
      rw [hms]
      dsimp only
      rw [hp1, hhalt]
      dsimp only
      rw [hb1]
      simp
  · intro w fuel h1 h2 h3 h4 h5 h6 hs hf
    obtain ⟨f, rfl⟩ : ∃ f, fuel = f + 1 := ⟨fuel - 1, by omega⟩
    have hms := main_stream w (f + 1) h1 h2 h3 h4 h5 h6
    rw [hms]
    dsimp only
    rw [loop_stop w f 0 hs]
  · intro w fuel n hg hs hr hn
    obtain ⟨p, hp1, hp2⟩ := streamLoop_skip w n fuel 0 (fun k _ hk => hg k (by omega)) hn
    obtain ⟨f2, hf2⟩ : ∃ f2, fuel - n = f2 + 1 := ⟨fuel - n - 1, by omega⟩
    have herr := streamLoop_err w f2 n hs hr
    rw [hf2] at hp1 hp2
    simp only [Nat.zero_add] at hp1 hp2
    constructor
    · rw [hp2, herr]
    · refine ⟨p, ?_⟩
      rw [hp1, herr]

/-- Witness for C1 (amended): ad4630 world whose second refill fails. -/
theorem c1_witness :
    (W4630.main w4630RefillFail 5).2 = Outcome.exited 0 ∧
    ∃ p, (W4630.main w4630RefillFail 5).1
        = p ++ Ev.refill (w4630RefillFail.refillRet 1)
            :: W4630.shutdownTrace true true true :=
  c1_amended_checked_failures_stop_execution.2.2.2.2.2.1 w4630RefillFail 5 1 rfl rfl
    (by decide) rfl rfl rfl
    (by
      intro k hk
      interval_cases k
      exact ⟨rfl, by decide, by decide, rfl⟩)
    rfl (by decide) (by decide)

/-! ## Exit-status analysis (C2) -/

theorem loop_exited_zero (w : W4630) : ∀ (fuel n : Nat) (c : Int),
    (W4630.loop w fuel n).2 = Outcome.exited c → c = 0 := by
  intro fuel
  induction fuel with
  | zero => intro n c h; simp [W4630.loop] at h
  | succ f ih =>
    intro n c h
    rcases hs : w.stopAt n with _ | _
    · rcases hb : (W4630.body w n).2 with _ | _
      · rw [loop_halt w f n hs hb] at h
        simp at h
        omega
      · rw [loop_cont w f n hs hb] at h
        dsimp only at h
        exact ih (n + 1) c h
    · rw [loop_stop w f n hs] at h
      simp at h
      omega

theorem loop_not_ub (w : W4630) : ∀ (fuel n : Nat),
    (W4630.loop w fuel n).2 ≠ Outcome.ub := by
  intro fuel
  induction fuel with
  | zero => intro n h; simp [W4630.loop] at h
  | succ f ih =>
    intro n h
    rcases hs : w.stopAt n with _ | _
    · rcases hb : (W4630.body w n).2 with _ | _
      · rw [loop_halt w f n hs hb] at h
        simp at h
      · rw [loop_cont w f n hs hb] at h
        dsimp only at h
        exact ih (n + 1) h
    · rw [loop_stop w f n hs] at h
      simp at h

theorem afterCtx_exited_zero (w : W4630) (fuel : Nat) (c : Int)
    (h : (W4630.afterCtx w fuel).2 = Outcome.exited c) : c = 0 := by
  have hl := loop_exited_zero w fuel 0 c
  simp only [W4630.afterCtx, pre] at h
  split_ifs at h <;> simp_all

theorem afterCtx_not_ub (w : W4630) (fuel : Nat) :
    (W4630.afterCtx w fuel).2 ≠ Outcome.ub := by
  have hl := loop_not_ub w fuel 0
  intro h
  simp only [W4630.afterCtx, pre] at h
  split_ifs at h <;> simp_all

/-- The libiio attribute read/write calls return 0 on success and a negative
errno-style code on failure; a world is well-formed when its return-code
oracles respect that sign convention. -/
def WFA (w : WA) : Prop :=
  (∀ a b, w.readRet a b ≤ 0) ∧ (∀ a b v, w.writeRet a b v ≤ 0) ∧
  (∀ a b, w.writeDRet a b ≤ 0) ∧ (∀ a b, w.readDRet a b ≤ 0)

set_option maxHeartbeats 1600000 in
theorem configureTrxLo_some_neg (w : WA) (hw : WFA w) :
    ∀ r, (WA.configureTrxLo w).2 = some r → r < 0 := by
  have h1 := hw.1 "voltage0" "rf_bandwidth"
  have h2 := hw.1 "voltage0" "sampling_frequency"
  have h3 := hw.2.1 "altvoltage2" "TX1_LO_frequency" 2500000000
  have h4 := hw.2.1 "altvoltage0" "RX1_LO_frequency" 2500000000
  intro r h
  simp only [WA.configureTrxLo, pre, ENODEV] at h
  split_ifs at h <;> simp_all <;> omega

set_option maxHeartbeats 1600000 in
theorem configureTrxLoDds_some_neg (w : WA) (hw : WFA w) :
    ∀ r, (WA.configureTrxLoDds w).2 = some r → r < 0 := by
  have h1 := hw.1 "voltage1" "rf_bandwidth"
  have h2 := hw.1 "voltage1" "sampling_frequency"
  have h3 := hw.2.1 "altvoltage2" "TX1_LO_frequency" 2400000000
  have h4 := hw.2.1 "altvoltage0" "RX1_LO_frequency" 2400000000
  intro r h
  simp only [WA.configureTrxLoDds, pre, ENODEV] at h
  split_ifs at h <;> simp_all <;> omega

theorem mainAfterCtx_exited (w : WA) (fuel : Nat) (hw : WFA w) (c : Int)
    (h : (WA.mainAfterCtx w fuel).2 = Outcome.exited c) :
    c = 0 ∨ c = EXIT_FAILURE ∨ c < 0 := by
  simp only [WA.mainAfterCtx, pre] at h
  split at h
  · simp at h
  · rename_i r heq
    have hr := configureTrxLo_some_neg w hw r heq
    rw [if_pos (by omega : r ≠ 0)] at h
    dsimp only at h
    simp at h
    omega

theorem mainDdsAfterCtx_exited (w : WA) (fuel : Nat) (hw : WFA w) (c : Int)
    (h : (WA.mainDdsAfterCtx w fuel).2 = Outcome.exited c) :
    c = 0 ∨ c = EXIT_FAILURE ∨ c < 0 := by
  simp only [WA.mainDdsAfterCtx, pre] at h
  split at h
  · simp at h
  · rename_i r heq
    have hr := configureTrxLoDds_some_neg w hw r heq
    rw [if_pos (by omega : r ≠ 0)] at h
    dsimp only at h
    simp at h
    omega

theorem mainAfterCtx_ub (w : WA) (fuel : Nat)
    (h : (WA.mainAfterCtx w fuel).2 = Outcome.ub) : (WA.configureTrxLo w).2 = none := by
  simp only [WA.mainAfterCtx, pre] at h
  split at h
  · rename_i heq
    exact heq
  · rename_i r heq
    split_ifs at h <;> simp_all

theorem mainDdsAfterCtx_ub (w : WA) (fuel : Nat)
    (h : (WA.mainDdsAfterCtx w fuel).2 = Outcome.ub) : (WA.configureTrxLoDds w).2 = none := by
  simp only [WA.mainDdsAfterCtx, pre] at h
  split at h
  · rename_i heq
    exact heq
  · rename_i r heq
    split_ifs at h <;> simp_all

/-- C2 (amended): the simple examples (modelled by the ad4630 program, which
the ad4696/ad7768 examples replicate) indeed only exit with status 0 or
abort — except that with more than one command-line argument they hand a
NULL context to the library (undefined behavior).  The adrv9002 examples can
additionally exit with `EXIT_FAILURE` or with a *negative* errno-style code
propagated from a failed library call; and on the path where every call in
`configure_trx_lo` succeeds, the missing return statement makes the behavior
undefined rather than exit 0. -/
theorem c2_amended_exit_statuses :
    (∀ (w : W4630) (fuel : Nat) (c : Int),
      (W4630.main w fuel).2 = Outcome.exited c → c = 0) ∧
    (∀ (w : W4630) (fuel : Nat),
      (W4630.main w fuel).2 = Outcome.ub → w.argc ≠ 1 ∧ w.argc ≠ 2) ∧
    (∀ (w : WA) (fuel : Nat) (c : Int), WFA w →
      (WA.mainA w fuel).2 = Outcome.exited c → c = 0 ∨ c = EXIT_FAILURE ∨ c < 0) ∧
    (∀ (w : WA) (fuel : Nat) (c : Int), WFA w →
      (WA.mainDds w fuel).2 = Outcome.exited c → c = 0 ∨ c = EXIT_FAILURE ∨ c < 0) ∧
    (∀ (w : WA) (fuel : Nat),
      (WA.mainA w fuel).2 = Outcome.ub → (WA.configureTrxLo w).2 = none) ∧
    (∀ (w : WA) (fuel : Nat),
      (WA.mainDds w fuel).2 = Outcome.ub → (WA.configureTrxLoDds w).2 = none) := by
  refine ⟨?_, ?_, ?_, ?_, ?_, ?_⟩
  · intro w fuel c h
    unfold W4630.main at h
    split_ifs at h <;> simp_all [pre]
    · exact afterCtx_exited_zero w fuel c h
    · exact afterCtx_exited_zero w fuel c h
  · intro w fuel h
    unfold W4630.main at h
    split_ifs at h with ha hb hc hd <;> simp_all [pre]
    · exact afterCtx_not_ub w fuel h
    · exact afterCtx_not_ub w fuel h
  · intro w fuel c hw h
    unfold WA.mainA at h
    split_ifs at h <;> simp_all [pre, EXIT_FAILURE]
    · rcases mainAfterCtx_exited w fuel hw c h with h | h | h <;> simp_all [EXIT_FAILURE]
    · rcases mainAfterCtx_exited w fuel hw c h with h | h | h <;> simp_all [EXIT_FAILURE]
  · intro w fuel c hw h
    unfold WA.mainDds at h
    split_ifs at h <;> simp_all [pre, EXIT_FAILURE]
    · rcases mainDdsAfterCtx_exited w fuel hw c h with h | h | h <;> simp_all [EXIT_FAILURE]
    · rcases mainDdsAfterCtx_exited w fuel hw c h with h | h | h <;> simp_all [EXIT_FAILURE]
  · intro w fuel h
    unfold WA.mainA at h
    split_ifs at h <;> simp_all [pre, EXIT_FAILURE]
    · exact mainAfterCtx_ub w fuel h
    · exact mainAfterCtx_ub w fuel h
  · intro w fuel h
    unfold WA.mainDds at h
    split_ifs at h <;> simp_all [pre, EXIT_FAILURE]
    · exact mainDdsAfterCtx_ub w fuel h
    · exact mainDdsAfterCtx_ub w fuel h

/-- Witness for C2 (amended), at worlds where the executions exit. -/
theorem c2_witness :
    ((-19 : Int) = 0 ∨ (-19 : Int) = EXIT_FAILURE ∨ (-19 : Int) < 0) ∧ (0 : Int) = 0 :=
  ⟨c2_amended_exit_statuses.2.2.1 wNoPhy 1 (-19)
      ⟨fun _ _ => le_refl 0, fun _ _ _ => le_refl 0, fun _ _ => le_refl 0,
        fun _ _ => le_refl 0⟩ rfl,
    c2_amended_exit_statuses.1 w4630RegFail 1 0 rfl⟩

/-- Witness for C4 at the world where the adrv9002 phy lookup fails: the
cleanup's context destruction really did follow a successful context
creation. -/
theorem c4_witness :
    (wNoPhy.argc = 1 ∧ wNoPhy.defaultCtxOk = true) ∨
    (wNoPhy.argc = 2 ∧ wNoPhy.uriCtxOk = true) :=
  c4_teardown_lifo_order.2.2.1 wNoPhy 1 (by decide)

/-- Witness for C6: the no-argument ad4630 world and a one-argument adrv9002
world. -/
theorem c6_witness :
    ((W4630.main w4630RegFail 1).1.head? = some Ev.createDefaultCtx ∧
      Ev.createUriCtx ∉ (W4630.main w4630RegFail 1).1) ∧
    ((WA.mainDds { wAllOk with argc := 2 } 1).1.head? = some Ev.createUriCtx ∧
      Ev.createDefaultCtx ∉ (WA.mainDds { wAllOk with argc := 2 } 1).1) :=
  ⟨c6_context_creation_by_argc.1 w4630RegFail 1 rfl,
    c6_context_creation_by_argc.2.2.2.2.2.2.2.1 { wAllOk with argc := 2 } 1 rfl rfl⟩

end Iio

